import Mathlib

/-!
Verification of the octocat-supply-api core logic: the relevance-search
engine (`SearchRepository` in `src/repositories/searchRepo.ts`), the
`GET /api/search/suggestions` route (`src/routes/search.ts`), and the
cart-order creation workflow (`POST /` in `src/routes/order.ts`).

Strings are modelled by Lean `String` (a wrapper around `List Char`).
SQLite semantics used by the source SQL are modelled explicitly:
`LIKE` with `%`/`_` wildcards and ASCII-only case folding, `LOWER` with
ASCII-only folding, `ORDER BY` on the BINARY collation (code-point
order), `LIMIT n` as `take n`.  JavaScript `toLowerCase` is modelled on
the ASCII and Latin-1 ranges (identity elsewhere).  JavaScript numbers
carry no arithmetic here (prices are only copied and compared), so they
are modelled by `Int`.
-/

/-! ### Character-level utilities -/

/-- ASCII-only lower-casing of one character, as performed by SQLite's
`LOWER` and by the case folding inside SQLite's `LIKE`. -/
def asciiLower (c : Char) : Char :=
  if h : 65 ≤ c.toNat ∧ c.toNat ≤ 90 then
    Char.ofNatAux (c.toNat + 32) (Or.inl (by omega))
  else c

/-- JavaScript `toLowerCase` for one character, modelled on the ASCII
range and the Latin-1 letters `À`–`Þ` (except `×`); other characters are
left unchanged. -/
def jsLowerChar (c : Char) : Char :=
  if h : 65 ≤ c.toNat ∧ c.toNat ≤ 90 then
    Char.ofNatAux (c.toNat + 32) (Or.inl (by omega))
  else if h2 : 192 ≤ c.toNat ∧ c.toNat ≤ 222 ∧ c.toNat ≠ 215 then
    Char.ofNatAux (c.toNat + 32) (Or.inl (by omega))
  else c

/-- A character is ASCII when its code point is below 128. -/
def isAsciiChar (c : Char) : Bool := c.toNat < 128

theorem toNat_asciiLower (c : Char) :
    (asciiLower c).toNat = if 65 ≤ c.toNat ∧ c.toNat ≤ 90 then c.toNat + 32 else c.toNat := by
  unfold asciiLower
  split
  · rfl
  · rfl

theorem toNat_jsLowerChar (c : Char) :
    (jsLowerChar c).toNat =
      if 65 ≤ c.toNat ∧ c.toNat ≤ 90 then c.toNat + 32
      else if 192 ≤ c.toNat ∧ c.toNat ≤ 222 ∧ c.toNat ≠ 215 then c.toNat + 32
      else c.toNat := by
  unfold jsLowerChar
  split
  · rfl
  · split
    · rfl
    · rfl

theorem char_eq_iff_toNat (a b : Char) : a = b ↔ a.toNat = b.toNat :=
  ⟨fun h => by rw [h], fun h => Char.ext (UInt32.ext h)⟩

theorem asciiLower_idem (c : Char) : asciiLower (asciiLower c) = asciiLower c := by
  rw [char_eq_iff_toNat, toNat_asciiLower, toNat_asciiLower]
  split_ifs <;> omega

theorem jsLowerChar_eq_asciiLower_of_ascii (c : Char) (h : isAsciiChar c = true) :
    jsLowerChar c = asciiLower c := by
  have hn : c.toNat < 128 := by simpa [isAsciiChar] using h
  rw [char_eq_iff_toNat, toNat_jsLowerChar, toNat_asciiLower]
  split_ifs <;> omega

theorem asciiLower_eq_pct_iff (c : Char) : asciiLower c = '%' ↔ c = '%' := by
  rw [char_eq_iff_toNat, char_eq_iff_toNat, toNat_asciiLower]
  have h37 : ('%' : Char).toNat = 37 := rfl
  rw [h37]
  split <;> omega

theorem asciiLower_eq_underscore_iff (c : Char) : asciiLower c = '_' ↔ c = '_' := by
  rw [char_eq_iff_toNat, char_eq_iff_toNat, toNat_asciiLower]
  have h95 : ('_' : Char).toNat = 95 := rfl
  rw [h95]
  split <;> omega

/-! ### The SQLite LIKE matcher

`likeMatch pat s` is true when the string `s` matches the SQLite `LIKE`
pattern `pat`: `%` matches any (possibly empty) sequence of characters,
`_` matches exactly one character, and any other pattern character
matches a string character up to ASCII case folding (SQLite's default
case-insensitive `LIKE`). -/

/-- Helper for the `%` wildcard: `tryTails f s` is true when `f` accepts
some suffix of `s` (including `s` itself and the empty suffix). -/
def tryTails (f : List Char → Bool) : List Char → Bool
  | [] => f []
  | c :: s2 => f (c :: s2) || tryTails f s2

def likeMatch : List Char → List Char → Bool
  | [], s => s.isEmpty
  | p :: ps, s =>
    if p = '%' then tryTails (likeMatch ps) s
    else
      match s with
      | [] => false
      | c :: s2 =>
        if p = '_' then likeMatch ps s2
        else (asciiLower p == asciiLower c) && likeMatch ps s2

/-- A LIKE pattern character is literal when it is neither `%` nor `_`. -/
def noWildChar (c : Char) : Bool := c ≠ '%' && c ≠ '_'

/-! ### BINARY collation comparison and deterministic sorting -/

/-- Lexicographic comparison of character lists by code point.  This is
SQLite's default BINARY collation (UTF-8 byte order coincides with code
point order). -/
def charListLE : List Char → List Char → Bool
  | [], _ => true
  | _ :: _, [] => false
  | a :: as, b :: bs =>
    if a.toNat < b.toNat then true
    else if b.toNat < a.toNat then false
    else charListLE as bs

/-- String comparison under the BINARY collation. -/
def strLE (a b : String) : Bool := charListLE a.data b.data

/-- Insertion into a sorted list (helper for the deterministic model of
SQL `ORDER BY`). -/
def insertSorted (le : α → α → Bool) (a : α) : List α → List α
  | [] => [a]
  | b :: bs => if le a b then a :: b :: bs else b :: insertSorted le a bs

/-- Deterministic sort modelling SQL `ORDER BY` with comparison `le`. -/
def sortBy (le : α → α → Bool) : List α → List α
  | [] => []
  | a :: as => insertSorted le a (sortBy le as)

/-! ### Data model (`src/models`, `database/migrations`) -/

/-- Row of the `products` table (fields used by the core logic). -/
structure Product where
  productId : Int
  supplierId : Int
  name : String
  description : String
  price : Int
  sku : String
deriving DecidableEq, Repr

/-- Row of the `suppliers` table (fields used by the search). -/
structure Supplier where
  supplierId : Int
  name : String
  email : String
deriving DecidableEq, Repr

/-- Row of the `orders` table. -/
structure Order where
  orderId : Int
  branchId : Int
  orderDate : String
  status : String
  name : String
  description : String
deriving DecidableEq, Repr

/-- Row of the `order_details` table. -/
structure OrderDetail where
  orderDetailId : Int
  orderId : Int
  productId : Int
  quantity : Int
  unitPrice : Int
  notes : String
deriving DecidableEq, Repr

/-- Discriminating tag of a `SearchSuggestion` (`'product' | 'supplier' | 'order'`). -/
inductive EntityKind where
  | product
  | supplier
  | order
deriving DecidableEq, Repr

/-- The `SearchSuggestion` result shape (`src/models/searchSuggestion.ts`).
The `metadata` object `{price, sku}` (populated only for products) is
modelled structurally as an optional pair. -/
structure SearchSuggestion where
  type : EntityKind
  id : Int
  text : String
  subtext : String
  metadata : Option (Int × String)
deriving DecidableEq, Repr

/-- The relational store: the tables consumed by the core, plus the
next auto-increment identifiers for the two tables the order workflow
writes. -/
structure Store where
  products : List Product
  suppliers : List Supplier
  orders : List Order
  orderDetails : List OrderDetail
  nextOrderId : Int
  nextOrderDetailId : Int
deriving DecidableEq, Repr

/-! ### SearchRepository (`src/repositories/searchRepo.ts`)

Each `searchX` method runs one SQL query; the SQL is modelled clause by
clause: the `WHERE` clause filters, the `CASE` expression computes the
`relevance` column, `ORDER BY` sorts, `LIMIT` truncates, and the final
`rows.map` builds the suggestions. -/

/-- Lower-casing by SQLite `LOWER` (ASCII only). -/
def lowerAscii (s : String) : String := String.mk (s.data.map asciiLower)

/-- Lower-casing by JavaScript `toLowerCase` (see `jsLowerChar`). -/
def jsToLower (s : String) : String := String.mk (s.data.map jsLowerChar)

/-- The `relevance` CASE expression of `searchProducts`:
1 when `LOWER(name) = ? OR LOWER(sku) = ?` (the lower-cased query),
2 when `LOWER(name) LIKE ? OR LOWER(sku) LIKE ?` (query plus `%`),
3 otherwise. -/
def productRelevance (exactPattern : String) (p : Product) : Nat :=
  if lowerAscii p.name == exactPattern || lowerAscii p.sku == exactPattern then 1
  else if likeMatch (exactPattern.data ++ ['%']) (lowerAscii p.name).data
      || likeMatch (exactPattern.data ++ ['%']) (lowerAscii p.sku).data then 2
  else 3

/-- The `relevance` CASE expression of `searchSuppliers` and `searchOrders`
(name only). -/
def nameRelevance (exactPattern : String) (name : String) : Nat :=
  if lowerAscii name == exactPattern then 1
  else if likeMatch (exactPattern.data ++ ['%']) (lowerAscii name).data then 2
  else 3

/-- Comparison for `ORDER BY relevance, name`. -/
def relNameLE (a b : Nat × String) : Bool :=
  a.1 < b.1 || (a.1 == b.1 && strLE a.2 b.2)

/-- Comparison for `ORDER BY relevance, order_date DESC`. -/
def relDateDescLE (a b : Nat × String) : Bool :=
  a.1 < b.1 || (a.1 == b.1 && strLE b.2 a.2)

/-- The suggestion built from a product row (subtext `SKU: ... | $...` with
the JavaScript number formatting abstracted to `toString`). -/
def productSuggestion (p : Product) : SearchSuggestion :=
  { type := .product
    id := p.productId
    text := p.name
    subtext := "SKU: " ++ p.sku ++ " | $" ++ toString p.price
    metadata := some (p.price, p.sku) }

/-- The suggestion built from a supplier row. -/
def supplierSuggestion (s : Supplier) : SearchSuggestion :=
  { type := .supplier
    id := s.supplierId
    text := s.name
    subtext := s.email
    metadata := none }

/-- The suggestion built from an order row (the locale-dependent
`toLocaleDateString` is abstracted to the stored date string). -/
def orderSuggestion (o : Order) : SearchSuggestion :=
  { type := .order
    id := o.orderId
    text := o.name
    subtext := "Status: " ++ o.status ++ " | " ++ o.orderDate
    metadata := none }

/-- The `WHERE LOWER(name) LIKE ? OR LOWER(sku) LIKE ?` clause of
`searchProducts` (the bound parameter is `'%' + query + '%'` with the
query in its original case). -/
def productWhere (query : String) (p : Product) : Bool :=
  likeMatch ('%' :: query.data ++ ['%']) (lowerAscii p.name).data
    || likeMatch ('%' :: query.data ++ ['%']) (lowerAscii p.sku).data

/-- The `WHERE LOWER(name) LIKE ?` clause of `searchSuppliers` and
`searchOrders`. -/
def nameWhere (query : String) (name : String) : Bool :=
  likeMatch ('%' :: query.data ++ ['%']) (lowerAscii name).data

/-- `SearchRepository.searchProducts`: filter on
`LOWER(name) LIKE '%q%' OR LOWER(sku) LIKE '%q%'` (raw query inside the
pattern), order by `relevance, name`, `LIMIT`, then map rows to
suggestions. -/
def searchProducts (db : Store) (query : String) (limit : Nat) : List SearchSuggestion :=
  let exactPattern := jsToLower query
  let matched := db.products.filter (productWhere query)
  let sorted := sortBy (fun a b => relNameLE (a.1, a.2.name) (b.1, b.2.name))
    (matched.map (fun p => (productRelevance exactPattern p, p)))
  ((sorted.take limit).map (fun rp => productSuggestion rp.2))

/-- `SearchRepository.searchSuppliers`: filter on `LOWER(name) LIKE '%q%'`,
order by `relevance, name`, `LIMIT`, map to suggestions. -/
def searchSuppliers (db : Store) (query : String) (limit : Nat) : List SearchSuggestion :=
  let exactPattern := jsToLower query
  let matched := db.suppliers.filter (fun s => nameWhere query s.name)
  let sorted := sortBy (fun a b => relNameLE (a.1, a.2.name) (b.1, b.2.name))
    (matched.map (fun s => (nameRelevance exactPattern s.name, s)))
  ((sorted.take limit).map (fun rs => supplierSuggestion rs.2))

/-- `SearchRepository.searchOrders`: filter on `LOWER(name) LIKE '%q%'`,
order by `relevance, order_date DESC`, `LIMIT`, map to suggestions. -/
def searchOrders (db : Store) (query : String) (limit : Nat) : List SearchSuggestion :=
  let exactPattern := jsToLower query
  let matched := db.orders.filter (fun o => nameWhere query o.name)
  let sorted := sortBy (fun a b => relDateDescLE (a.1, a.2.orderDate) (b.1, b.2.orderDate))
    (matched.map (fun o => (nameRelevance exactPattern o.name, o)))
  ((sorted.take limit).map (fun ro => orderSuggestion ro.2))

/-- One cell of the interleave loop: the singleton `[l[i]]` when `i` is in
range (the `if (i < l.length) push(l[i])` step), else nothing. -/
def cellAt (l : List SearchSuggestion) (i : Nat) : List SearchSuggestion :=
  (l.drop i).take 1

/-- The `for (let i = 0; i < maxLength; i++)` interleave loop of
`getSuggestions`: starting at index `i` with `rounds` iterations left
(the loop is entered with `i = 0` and `rounds = maxLength`), each
iteration pushes `products[i]`, `suppliers[i]`, `orders[i]` (when in
range) and breaks once the accumulated length reaches `limit`. -/
def interleaveLoop (ps ss os : List SearchSuggestion) (limit : Nat) :
    Nat → Nat → List SearchSuggestion → List SearchSuggestion
  | 0, _, acc => acc
  | rounds + 1, i, acc =>
    if limit ≤ (acc ++ cellAt ps i ++ cellAt ss i ++ cellAt os i).length
    then acc ++ cellAt ps i ++ cellAt ss i ++ cellAt os i
    else interleaveLoop ps ss os limit rounds (i + 1)
      (acc ++ cellAt ps i ++ cellAt ss i ++ cellAt os i)

/-- `SearchRepository.getSuggestions`: dispatch on the entity filter; with
no filter (or an unrecognised one) run the three searches with per-entity
limit `Math.ceil(limit / 3)`, interleave, and truncate (`slice(0, limit)`). -/
def getSuggestions (db : Store) (query : String) (entityType : Option String)
    (limit : Nat) : List SearchSuggestion :=
  if entityType = some "products" then searchProducts db query limit
  else if entityType = some "suppliers" then searchSuppliers db query limit
  else if entityType = some "orders" then searchOrders db query limit
  else
    let perEntityLimit := (limit + 2) / 3
    let products := searchProducts db query perEntityLimit
    let suppliers := searchSuppliers db query perEntityLimit
    let orders := searchOrders db query perEntityLimit
    let maxLength := max products.length (max suppliers.length orders.length)
    (interleaveLoop products suppliers orders limit maxLength 0 []).take limit

/-! ### Spec-side search definitions

These definitions follow the specification's words ("filter to rows where
the name or SKU contains the query substring (case-insensitive) ...
tier 1 exact, tier 2 prefix, tier 3 contains"), to be compared with the
source-derived `searchProducts`/`searchSuppliers`/`searchOrders` above.
Case folding is ASCII (the store's collation). -/

/-- Applies ASCII case folding to a character list. -/
def lowerList (l : List Char) : List Char := l.map asciiLower

/-- Substring containment of `q` in `s` (by some suffix of `s` starting
with `q`). -/
def containsSub (q s : List Char) : Bool := tryTails (fun t => q.isPrefixOf t) s

/-- Case-insensitive substring containment, per the spec's "contains the
query substring (case-insensitive)". -/
def substrCI (q s : String) : Bool := containsSub (lowerList q.data) (lowerList s.data)

/-- Case-insensitive prefix test, per the spec's "starts with the query". -/
def startsWithCI (q s : String) : Bool := (lowerList q.data).isPrefixOf (lowerList s.data)

/-- Spec-side relevance tier for products: 1 exact (name or SKU), 2
prefix, 3 contains. -/
def specProductRelevance (q : String) (p : Product) : Nat :=
  if lowerAscii p.name == lowerAscii q || lowerAscii p.sku == lowerAscii q then 1
  else if startsWithCI q p.name || startsWithCI q p.sku then 2
  else 3

/-- Spec-side relevance tier on a single name field. -/
def specNameRelevance (q : String) (name : String) : Nat :=
  if lowerAscii name == lowerAscii q then 1
  else if startsWithCI q name then 2
  else 3

/-- Spec-side product search: exactly the rows whose case-folded name or
SKU contains the case-folded query, ordered by tier then name, truncated. -/
def specSearchProducts (db : Store) (q : String) (limit : Nat) : List SearchSuggestion :=
  let matched := db.products.filter (fun p => substrCI q p.name || substrCI q p.sku)
  let sorted := sortBy (fun a b => relNameLE (a.1, a.2.name) (b.1, b.2.name))
    (matched.map (fun p => (specProductRelevance q p, p)))
  (sorted.take limit).map (fun rp => productSuggestion rp.2)

/-- Spec-side supplier search: rows whose case-folded name contains the
case-folded query, ordered by tier then name, truncated. -/
def specSearchSuppliers (db : Store) (q : String) (limit : Nat) : List SearchSuggestion :=
  let matched := db.suppliers.filter (fun s => substrCI q s.name)
  let sorted := sortBy (fun a b => relNameLE (a.1, a.2.name) (b.1, b.2.name))
    (matched.map (fun s => (specNameRelevance q s.name, s)))
  (sorted.take limit).map (fun rs => supplierSuggestion rs.2)

/-- Spec-side order search: rows whose case-folded name contains the
case-folded query, ordered by tier then order date descending, truncated. -/
def specSearchOrders (db : Store) (q : String) (limit : Nat) : List SearchSuggestion :=
  let matched := db.orders.filter (fun o => substrCI q o.name)
  let sorted := sortBy (fun a b => relDateDescLE (a.1, a.2.orderDate) (b.1, b.2.orderDate))
    (matched.map (fun o => (specNameRelevance q o.name, o)))
  (sorted.take limit).map (fun ro => orderSuggestion ro.2)

/-! ### Lemmas about the LIKE matcher -/

theorem tryTails_congr (f g : List Char → Bool) (h : ∀ t, f t = g t) :
    ∀ s, tryTails f s = tryTails g s := by
  intro s
  induction s with
  | nil => simpa [tryTails] using h []
  | cons c s2 ih => simp [tryTails, h (c :: s2), ih]

theorem noWildChar_iff (c : Char) : noWildChar c = true ↔ c ≠ '%' ∧ c ≠ '_' := by
  simp [noWildChar]

/-- A literal (wildcard-free) pattern followed by `%` accepts exactly the
strings whose case folding starts with the case-folded pattern. -/
theorem likeMatch_lit_pct (p : List Char) (hp : p.all noWildChar = true) :
    ∀ s, likeMatch (p ++ ['%']) s = (lowerList p).isPrefixOf (lowerList s) := by
  induction p with
  | nil =>
    intro s
    have hall : ∀ s2, likeMatch ['%'] s2 = true := by
      intro s2
      induction s2 with
      | nil => rfl
      | cons c t ih => simp [likeMatch, tryTails] at ih ⊢; simp [ih]
    simp [hall s, lowerList, List.isPrefixOf]
  | cons a p ih =>
    intro s
    have ha := hp
    simp only [List.all_cons, Bool.and_eq_true] at ha
    have hpct : a ≠ '%' := ((noWildChar_iff a).mp ha.1).1
    have hund : a ≠ '_' := ((noWildChar_iff a).mp ha.1).2
    cases s with
    | nil =>
      simp [likeMatch, hpct, lowerList, List.isPrefixOf]
    | cons c s2 =>
      simp only [List.cons_append, likeMatch, if_neg hpct, if_neg hund]
      simp [lowerList, List.isPrefixOf, ih ha.2 s2]

/-- The `'%' ++ literal ++ '%'` pattern (the source's `searchPattern`)
accepts exactly the strings whose case folding contains the case-folded
literal as a substring. -/
theorem likeMatch_pct_lit_pct (p : List Char) (hp : p.all noWildChar = true) :
    ∀ s, likeMatch ('%' :: (p ++ ['%'])) s = containsSub (lowerList p) (lowerList s) := by
  intro s
  induction s with
  | nil =>
    show likeMatch (p ++ ['%']) [] = (lowerList p).isPrefixOf (lowerList [])
    rw [likeMatch_lit_pct p hp []]
  | cons c s2 ih =>
    have e1 : likeMatch ('%' :: (p ++ ['%'])) (c :: s2)
        = (likeMatch (p ++ ['%']) (c :: s2) || likeMatch ('%' :: (p ++ ['%'])) s2) := rfl
    have e2 : containsSub (lowerList p) (lowerList (c :: s2))
        = ((lowerList p).isPrefixOf (lowerList (c :: s2))
            || containsSub (lowerList p) (lowerList s2)) := rfl
    rw [e1, e2, likeMatch_lit_pct p hp (c :: s2), ih]

/-- Case folding of the pattern does not change the LIKE matcher (the
matcher already folds both sides). -/
theorem likeMatch_lower_pat (p : List Char) : ∀ s, likeMatch (lowerList p) s = likeMatch p s := by
  induction p with
  | nil => intro s; rfl
  | cons a p ih =>
    intro s
    by_cases hpct : a = '%'
    · subst hpct
      have hl : asciiLower '%' = '%' := by decide
      simp only [lowerList, List.map_cons, hl, likeMatch, if_pos rfl]
      exact tryTails_congr _ _ (fun t => ih t) s
    · have hlp : asciiLower a ≠ '%' := fun h => hpct ((asciiLower_eq_pct_iff a).mp h)
      by_cases hund : a = '_'
      · subst hund
        have hl : asciiLower '_' = '_' := by decide
        cases s with
        | nil => simp [lowerList, likeMatch, hl]
        | cons c s2 =>
          simp only [lowerList, List.map_cons, hl, likeMatch, if_neg hlp]
          have hs2 := ih s2
          simp only [lowerList] at hs2
          simp [hs2]
      · have hlu : asciiLower a ≠ '_' := fun h => hund ((asciiLower_eq_underscore_iff a).mp h)
        cases s with
        | nil => simp [lowerList, likeMatch, if_neg hlp, if_neg hpct]
        | cons c s2 =>
          simp only [lowerList, List.map_cons, likeMatch, if_neg hlp, if_neg hpct,
            if_neg hlu, if_neg hund]
          have hs2 := ih s2
          simp only [lowerList] at hs2
          rw [asciiLower_idem, hs2]

/-! ### String-level lemmas -/

/-- The whole string is ASCII. -/
def isAsciiStr (s : String) : Bool := s.data.all isAsciiChar

/-- The string contains no LIKE wildcard (`%` or `_`). -/
def noWildStr (s : String) : Bool := s.data.all noWildChar

theorem data_lowerAscii (s : String) : (lowerAscii s).data = lowerList s.data := rfl

theorem lowerList_idem (l : List Char) : lowerList (lowerList l) = lowerList l := by
  simp [lowerList, List.map_map, Function.comp_def, asciiLower_idem]

theorem jsToLower_eq_lowerAscii (q : String) (h : isAsciiStr q = true) :
    jsToLower q = lowerAscii q := by
  simp only [isAsciiStr, List.all_eq_true] at h
  simp only [jsToLower, lowerAscii]
  congr 1
  exact List.map_congr_left (fun c hc => jsLowerChar_eq_asciiLower_of_ascii c (h c hc))

theorem isAsciiChar_asciiLower (c : Char) : isAsciiChar (asciiLower c) = isAsciiChar c := by
  simp only [isAsciiChar, toNat_asciiLower]
  split_ifs with h
  · rw [decide_eq_decide]
    omega
  · rfl

theorem isAsciiStr_lowerAscii (q : String) : isAsciiStr (lowerAscii q) = isAsciiStr q := by
  simp [isAsciiStr, lowerAscii, List.all_map, Function.comp_def, isAsciiChar_asciiLower]

theorem lowerAscii_idem (q : String) : lowerAscii (lowerAscii q) = lowerAscii q := by
  simp only [lowerAscii, data_lowerAscii]
  exact congrArg String.mk (lowerList_idem q.data)

theorem noWildChar_asciiLower (c : Char) : noWildChar (asciiLower c) = noWildChar c := by
  simp only [noWildChar]
  by_cases h1 : c = '%'
  · subst h1; rfl
  · by_cases h2 : c = '_'
    · subst h2; rfl
    · have g1 : asciiLower c ≠ '%' := fun h => h1 ((asciiLower_eq_pct_iff c).mp h)
      have g2 : asciiLower c ≠ '_' := fun h => h2 ((asciiLower_eq_underscore_iff c).mp h)
      simp [h1, h2, g1, g2]

theorem noWild_lowerList (q : List Char) (h : q.all noWildChar = true) :
    (lowerList q).all noWildChar = true := by
  simpa [lowerList, List.all_map, Function.comp_def, noWildChar_asciiLower] using h

/-- The `WHERE ... LIKE '%q%'` filter on a `LOWER`-ed column equals
case-insensitive substring containment, for wildcard-free queries. -/
theorem likeFilter_eq_substrCI (q : String) (hW : noWildStr q = true) (s : String) :
    likeMatch ('%' :: q.data ++ ['%']) (lowerAscii s).data = substrCI q s := by
  rw [data_lowerAscii, List.cons_append, likeMatch_pct_lit_pct q.data hW, lowerList_idem]
  rfl

/-- The `LIKE 'q%'` prefix test on a `LOWER`-ed column equals the
case-insensitive prefix test, for wildcard-free lower-cased queries. -/
theorem likeStarts_eq_startsWithCI (q : String) (hW : noWildStr q = true) (s : String) :
    likeMatch ((lowerAscii q).data ++ ['%']) (lowerAscii s).data = startsWithCI q s := by
  rw [data_lowerAscii, data_lowerAscii,
    likeMatch_lit_pct (lowerList q.data) (noWild_lowerList q.data hW),
    lowerList_idem, lowerList_idem]
  rfl

/-! ### C3: per-entity search characterization -/

theorem productRelevance_eq_spec (q : String) (hW : noWildStr q = true) (p : Product) :
    productRelevance (lowerAscii q) p = specProductRelevance q p := by
  unfold productRelevance specProductRelevance
  rw [likeStarts_eq_startsWithCI q hW p.name, likeStarts_eq_startsWithCI q hW p.sku]

theorem nameRelevance_eq_spec (q : String) (hW : noWildStr q = true) (name : String) :
    nameRelevance (lowerAscii q) name = specNameRelevance q name := by
  unfold nameRelevance specNameRelevance
  rw [likeStarts_eq_startsWithCI q hW name]

/-- Claim C3 theorem, amended: for ASCII queries containing no LIKE
wildcard (`%`/`_`), each per-entity search returns exactly the rows
whose case-folded name (or, for products, name or SKU) contains the
case-folded query as a substring, ordered ascending by relevance tier
(1 exact, 2 prefix, 3 contains) with ties broken by name (products,
suppliers) or by order date descending (orders), truncated to the
per-entity limit. -/
theorem searchEntities_eq_spec (db : Store) (q : String) (n : Nat)
    (hA : isAsciiStr q = true) (hW : noWildStr q = true) :
    searchProducts db q n = specSearchProducts db q n
      ∧ searchSuppliers db q n = specSearchSuppliers db q n
      ∧ searchOrders db q n = specSearchOrders db q n := by
  have hq : jsToLower q = lowerAscii q := jsToLower_eq_lowerAscii q hA
  refine ⟨?_, ?_, ?_⟩
  · have hfil : db.products.filter (productWhere q)
        = db.products.filter (fun p => substrCI q p.name || substrCI q p.sku) :=
      List.filter_congr (fun p _ => by
        unfold productWhere
        rw [likeFilter_eq_substrCI q hW p.name, likeFilter_eq_substrCI q hW p.sku])
    have hmap : (db.products.filter (fun p => substrCI q p.name || substrCI q p.sku)).map
          (fun p => (productRelevance (lowerAscii q) p, p))
        = (db.products.filter (fun p => substrCI q p.name || substrCI q p.sku)).map
          (fun p => (specProductRelevance q p, p)) :=
      List.map_congr_left (fun p _ => by rw [productRelevance_eq_spec q hW p])
    simp only [searchProducts, specSearchProducts, hq]
    rw [hfil, hmap]
  · have hfil : db.suppliers.filter (fun s => nameWhere q s.name)
        = db.suppliers.filter (fun s => substrCI q s.name) :=
      List.filter_congr (fun s _ => by
        unfold nameWhere
        rw [likeFilter_eq_substrCI q hW s.name])
    have hmap : (db.suppliers.filter (fun s => substrCI q s.name)).map
          (fun s => (nameRelevance (lowerAscii q) s.name, s))
        = (db.suppliers.filter (fun s => substrCI q s.name)).map
          (fun s => (specNameRelevance q s.name, s)) :=
      List.map_congr_left (fun s _ => by rw [nameRelevance_eq_spec q hW s.name])
    simp only [searchSuppliers, specSearchSuppliers, hq]
    rw [hfil, hmap]
  · have hfil : db.orders.filter (fun o => nameWhere q o.name)
        = db.orders.filter (fun o => substrCI q o.name) :=
      List.filter_congr (fun o _ => by
        unfold nameWhere
        rw [likeFilter_eq_substrCI q hW o.name])
    have hmap : (db.orders.filter (fun o => substrCI q o.name)).map
          (fun o => (nameRelevance (lowerAscii q) o.name, o))
        = (db.orders.filter (fun o => substrCI q o.name)).map
          (fun o => (specNameRelevance q o.name, o)) :=
      List.map_congr_left (fun o _ => by rw [nameRelevance_eq_spec q hW o.name])
    simp only [searchOrders, specSearchOrders, hq]
    rw [hfil, hmap]

/-- Store with one product named "watt", used to refute claim C3 as
frozen: the query "w%t" is a LIKE pattern, not a literal substring. -/
def likeWildStore : Store :=
  { products := [⟨1, 1, "watt", "", 10, "XYZ"⟩]
    suppliers := []
    orders := []
    orderDetails := []
    nextOrderId := 1
    nextOrderDetailId := 1 }

/-- Claim C3 counterexample: with the query "w%t" (length 3) the product
search returns the row "watt" even though "w%t" is not contained in
"watt" as a substring — the claim's "exactly those rows whose case-folded
name or SKU contains q" is violated because the query is interpreted as a
SQL LIKE pattern. -/
theorem searchProducts_wildcard_counterexample :
    (searchProducts likeWildStore "w%t" 10).length = 1
      ∧ substrCI "w%t" "watt" = false
      ∧ substrCI "w%t" "XYZ" = false
      ∧ searchProducts likeWildStore "w%t" 10 ≠ specSearchProducts likeWildStore "w%t" 10 := by
  refine ⟨by decide, by decide, by decide, by decide⟩

/-- Claim C3 witness: at the ASCII wildcard-free query "wid" the three
searches agree with their specification-side characterizations. -/
theorem searchEntities_eq_spec_witness :
    searchProducts likeWildStore "wid" 10 = specSearchProducts likeWildStore "wid" 10
      ∧ searchSuppliers likeWildStore "wid" 10 = specSearchSuppliers likeWildStore "wid" 10
      ∧ searchOrders likeWildStore "wid" 10 = specSearchOrders likeWildStore "wid" 10 :=
  searchEntities_eq_spec likeWildStore "wid" 10 (by decide) (by decide)

/-! ### C6: case insensitivity -/

theorem likePattern_lower (q : String) (hA : isAsciiStr q = true) (s : List Char) :
    likeMatch ('%' :: (jsToLower q).data ++ ['%']) s = likeMatch ('%' :: q.data ++ ['%']) s := by
  have hpl : asciiLower '%' = '%' := by decide
  have h1 : ('%' :: (jsToLower q).data ++ ['%']) = lowerList ('%' :: q.data ++ ['%']) := by
    rw [jsToLower_eq_lowerAscii q hA, data_lowerAscii]
    simp [lowerList, hpl]
  rw [h1, likeMatch_lower_pat]

theorem jsToLower_jsToLower (q : String) (hA : isAsciiStr q = true) :
    jsToLower (jsToLower q) = jsToLower q := by
  rw [jsToLower_eq_lowerAscii q hA]
  rw [jsToLower_eq_lowerAscii (lowerAscii q) (by rw [isAsciiStr_lowerAscii]; exact hA)]
  exact lowerAscii_idem q

theorem searchProducts_ci (db : Store) (q : String) (n : Nat) (hA : isAsciiStr q = true) :
    searchProducts db (jsToLower q) n = searchProducts db q n := by
  have hfil : db.products.filter (productWhere (jsToLower q))
      = db.products.filter (productWhere q) :=
    List.filter_congr (fun p _ => by
      unfold productWhere
      rw [likePattern_lower q hA (lowerAscii p.name).data,
        likePattern_lower q hA (lowerAscii p.sku).data])
  simp only [searchProducts, jsToLower_jsToLower q hA]
  rw [hfil]

theorem searchSuppliers_ci (db : Store) (q : String) (n : Nat) (hA : isAsciiStr q = true) :
    searchSuppliers db (jsToLower q) n = searchSuppliers db q n := by
  have hfil : db.suppliers.filter (fun s => nameWhere (jsToLower q) s.name)
      = db.suppliers.filter (fun s => nameWhere q s.name) :=
    List.filter_congr (fun s _ => by
      unfold nameWhere
      rw [likePattern_lower q hA (lowerAscii s.name).data])
  simp only [searchSuppliers, jsToLower_jsToLower q hA]
  rw [hfil]

theorem searchOrders_ci (db : Store) (q : String) (n : Nat) (hA : isAsciiStr q = true) :
    searchOrders db (jsToLower q) n = searchOrders db q n := by
  have hfil : db.orders.filter (fun o => nameWhere (jsToLower q) o.name)
      = db.orders.filter (fun o => nameWhere q o.name) :=
    List.filter_congr (fun o _ => by
      unfold nameWhere
      rw [likePattern_lower q hA (lowerAscii o.name).data])
  simp only [searchOrders, jsToLower_jsToLower q hA]
  rw [hfil]

/-- Claim C6 theorem, amended: for every ASCII query of length at least 3,
searching with the query and with its lower-cased form yields identical
result sets, for every entity filter and limit (for non-ASCII queries this
can fail, because the store's LIKE folds only ASCII case). -/
theorem getSuggestions_ci (db : Store) (q : String) (entityType : Option String)
    (limit : Nat) (_hq : 3 ≤ q.length) (hA : isAsciiStr q = true) :
    getSuggestions db (jsToLower q) entityType limit = getSuggestions db q entityType limit := by
  simp only [getSuggestions]
  rw [searchProducts_ci db q limit hA, searchSuppliers_ci db q limit hA,
    searchOrders_ci db q limit hA]
  rw [searchProducts_ci db q ((limit + 2) / 3) hA, searchSuppliers_ci db q ((limit + 2) / 3) hA,
    searchOrders_ci db q ((limit + 2) / 3) hA]

/-- Store with one supplier whose name is the Latin-1 string "äbc", used
to refute claim C6 as frozen. -/
def latinStore : Store :=
  { products := []
    suppliers := [⟨1, "äbc", "a@b.c"⟩]
    orders := []
    orderDetails := []
    nextOrderId := 1
    nextOrderDetailId := 1 }

/-- Claim C6 counterexample: the query "ÄBC" (length 3) and its
lower-cased form "äbc" return different result sets — SQLite's LIKE only
folds ASCII case, so the non-ASCII query "ÄBC" does not match the
supplier "äbc" while "äbc" does. -/
theorem getSuggestions_ci_counterexample :
    jsToLower "ÄBC" = "äbc"
      ∧ 3 ≤ "ÄBC".length
      ∧ getSuggestions latinStore "ÄBC" (some "suppliers") 10 = []
      ∧ getSuggestions latinStore "äbc" (some "suppliers") 10 ≠ [] := by
  refine ⟨by decide, by decide, by decide, by decide⟩

/-- Claim C6 witness: searching with "WIDGET" and with its lower-cased
form "widget" yields identical result sets. -/
theorem getSuggestions_ci_witness :
    getSuggestions likeWildStore (jsToLower "WIDGET") none 10
      = getSuggestions likeWildStore "WIDGET" none 10 :=
  getSuggestions_ci likeWildStore "WIDGET" none 10 (by decide) (by decide)

example : likeMatch "%wid%".data "widget".data = true := by decide
example : likeMatch "%wid%".data "a widget".data = true := by decide
example : likeMatch "%wid%".data "WIDGET".data = true := by decide
example : likeMatch "%wid%".data "wont".data = false := by decide
example : likeMatch "%w%t%".data "watt".data = true := by decide
example : likeMatch "w_d".data "wad".data = true := by decide
example : lowerAscii "Widget A" = "widget a" := by decide
example : jsToLower "ÄBC" = "äbc" := by decide

/-! ### C1: round-robin interleaving -/

/-- Spec-side round-robin merge, from round `i` on: take `products[i]`,
then `suppliers[i]`, then `orders[i]` for `i = 0, 1, ...`, skipping
exhausted lists, until all three lists are exhausted. -/
def rrFrom (ps ss os : List SearchSuggestion) (maxLen : Nat) (i : Nat) : List SearchSuggestion :=
  if _h : i < maxLen then
    (cellAt ps i ++ cellAt ss i ++ cellAt os i) ++ rrFrom ps ss os maxLen (i + 1)
  else []
termination_by maxLen - i

/-- The full round-robin interleaving of the three result lists. -/
def roundRobin (ps ss os : List SearchSuggestion) : List SearchSuggestion :=
  rrFrom ps ss os (max ps.length (max ss.length os.length)) 0

/-- Truncating the source's interleave loop (which may break only after a
complete round) to `limit` agrees with truncating the full round-robin
merge. -/
theorem interleaveLoop_take (ps ss os : List SearchSuggestion) (limit : Nat) :
    ∀ rounds i acc,
      (interleaveLoop ps ss os limit rounds i acc).take limit
        = (acc ++ rrFrom ps ss os (i + rounds) i).take limit := by
  intro rounds
  induction rounds with
  | zero =>
    intro i acc
    rw [interleaveLoop, rrFrom, dif_neg (by omega), List.append_nil]
  | succ rounds ih =>
    intro i acc
    rw [interleaveLoop, rrFrom, dif_pos (by omega)]
    split
    · next h2 =>
      have hr : acc ++ ((cellAt ps i ++ cellAt ss i ++ cellAt os i)
            ++ rrFrom ps ss os (i + (rounds + 1)) (i + 1))
          = (acc ++ cellAt ps i ++ cellAt ss i ++ cellAt os i)
            ++ rrFrom ps ss os (i + (rounds + 1)) (i + 1) := by
        simp [List.append_assoc]
      rw [hr, List.take_append_of_le_length h2]
    · next h2 =>
      have hmax : i + (rounds + 1) = (i + 1) + rounds := by omega
      rw [hmax, ih (i + 1) (acc ++ cellAt ps i ++ cellAt ss i ++ cellAt os i)]
      simp [List.append_assoc]

/-- With no entity filter, `getSuggestions` returns the first `limit`
elements of the round-robin interleaving of the three per-entity result
lists. -/
theorem getSuggestions_none_eq (db : Store) (q : String) (limit : Nat) :
    getSuggestions db q none limit
      = (roundRobin (searchProducts db q ((limit + 2) / 3))
          (searchSuppliers db q ((limit + 2) / 3))
          (searchOrders db q ((limit + 2) / 3))).take limit := by
  simp only [getSuggestions, roundRobin]
  rw [if_neg (by simp), if_neg (by simp), if_neg (by simp)]
  rw [interleaveLoop_take _ _ _ limit _ 0 []]
  rw [Nat.zero_add]
  rfl

/-- Claim C1 theorem: for every query of length at least 3 and limit in
[1, 20], with no entity filter, `getSuggestions` returns exactly the
round-robin interleaving of the three per-entity result lists (each
independently limited to `ceil(limit/3) = (limit+2)/3`) truncated to the
overall limit, and the output length is at most `limit`. -/
theorem getSuggestions_roundRobin (db : Store) (q : String) (limit : Nat)
    (_hq : 3 ≤ q.length) (_h1 : 1 ≤ limit) (_h20 : limit ≤ 20) :
    getSuggestions db q none limit
      = (roundRobin (searchProducts db q ((limit + 2) / 3))
          (searchSuppliers db q ((limit + 2) / 3))
          (searchOrders db q ((limit + 2) / 3))).take limit
      ∧ (getSuggestions db q none limit).length ≤ limit := by
  refine ⟨getSuggestions_none_eq db q limit, ?_⟩
  rw [getSuggestions_none_eq db q limit]
  rw [List.length_take]
  exact Nat.min_le_left _ _

/-- Claim C1 witness: a concrete valid request with no entity filter. -/
theorem getSuggestions_roundRobin_witness :
    getSuggestions likeWildStore "wat" none 5
      = (roundRobin (searchProducts likeWildStore "wat" ((5 + 2) / 3))
          (searchSuppliers likeWildStore "wat" ((5 + 2) / 3))
          (searchOrders likeWildStore "wat" ((5 + 2) / 3))).take 5
      ∧ (getSuggestions likeWildStore "wat" none 5).length ≤ 5 :=
  getSuggestions_roundRobin likeWildStore "wat" 5 (by decide) (by decide) (by decide)

/-! ### C7: entity-type diversity of the interleaved head -/

theorem length_insertSorted (le : α → α → Bool) (a : α) (l : List α) :
    (insertSorted le a l).length = l.length + 1 := by
  induction l with
  | nil => rfl
  | cons b bs ih =>
    simp only [insertSorted]
    split
    · simp
    · simp [ih]

theorem length_sortBy (le : α → α → Bool) (l : List α) :
    (sortBy le l).length = l.length := by
  induction l with
  | nil => rfl
  | cons a as ih => simp [sortBy, length_insertSorted, ih]

theorem length_searchProducts (db : Store) (q : String) (n : Nat) :
    (searchProducts db q n).length = min n (db.products.filter (productWhere q)).length := by
  simp [searchProducts, length_sortBy]

theorem length_searchSuppliers (db : Store) (q : String) (n : Nat) :
    (searchSuppliers db q n).length
      = min n (db.suppliers.filter (fun s => nameWhere q s.name)).length := by
  simp [searchSuppliers, length_sortBy]

theorem length_searchOrders (db : Store) (q : String) (n : Nat) :
    (searchOrders db q n).length
      = min n (db.orders.filter (fun o => nameWhere q o.name)).length := by
  simp [searchOrders, length_sortBy]

theorem searchProducts_type (db : Store) (q : String) (n : Nat) :
    ∀ x ∈ searchProducts db q n, x.type = EntityKind.product := by
  intro x hx
  simp only [searchProducts] at hx
  rw [List.mem_map] at hx
  obtain ⟨rp, _, rfl⟩ := hx
  rfl

theorem searchSuppliers_type (db : Store) (q : String) (n : Nat) :
    ∀ x ∈ searchSuppliers db q n, x.type = EntityKind.supplier := by
  intro x hx
  simp only [searchSuppliers] at hx
  rw [List.mem_map] at hx
  obtain ⟨rs, _, rfl⟩ := hx
  rfl

theorem searchOrders_type (db : Store) (q : String) (n : Nat) :
    ∀ x ∈ searchOrders db q n, x.type = EntityKind.order := by
  intro x hx
  simp only [searchOrders] at hx
  rw [List.mem_map] at hx
  obtain ⟨ro, _, rfl⟩ := hx
  rfl

theorem roundRobin_pos (P S O : List SearchSuggestion)
    (h : 0 < max P.length (max S.length O.length)) :
    roundRobin P S O
      = (P.take 1 ++ S.take 1 ++ O.take 1)
        ++ rrFrom P S O (max P.length (max S.length O.length)) 1 := by
  rw [roundRobin, rrFrom, dif_pos h]
  rfl

theorem two_mem_take (x y : SearchSuggestion) (t : List SearchSuggestion) (limit : Nat)
    (h : 2 ≤ limit) :
    x ∈ (x :: y :: t).take limit ∧ y ∈ (x :: y :: t).take limit := by
  obtain ⟨m, rfl⟩ : ∃ m, limit = m + 2 := ⟨limit - 2, by omega⟩
  simp [List.take_succ_cons]

theorem diverse_core (P S O : List SearchSuggestion) (limit : Nat) (h2 : 2 ≤ limit)
    (tP : ∀ x ∈ P, x.type = EntityKind.product)
    (tS : ∀ x ∈ S, x.type = EntityKind.supplier)
    (tO : ∀ x ∈ O, x.type = EntityKind.order)
    (hpair : (P ≠ [] ∧ S ≠ []) ∨ (P ≠ [] ∧ O ≠ []) ∨ (S ≠ [] ∧ O ≠ [])) :
    ∃ a ∈ (roundRobin P S O).take limit,
      ∃ b ∈ (roundRobin P S O).take limit, a.type ≠ b.type := by
  have caseA : P ≠ [] → S ≠ [] → ∃ a ∈ (roundRobin P S O).take limit,
      ∃ b ∈ (roundRobin P S O).take limit, a.type ≠ b.type := by
    intro hP hS
    obtain ⟨x, P2, hXP⟩ := List.exists_cons_of_ne_nil hP
    obtain ⟨y, S2, hYS⟩ := List.exists_cons_of_ne_nil hS
    have hml : 0 < max P.length (max S.length O.length) := by
      have : 0 < P.length := by rw [hXP]; simp
      omega
    have hrr : roundRobin P S O
        = x :: y :: (O.take 1 ++ rrFrom P S O (max P.length (max S.length O.length)) 1) := by
      rw [roundRobin_pos P S O hml, hXP, hYS]
      simp
    rw [hrr]
    obtain ⟨hx, hy⟩ := two_mem_take x y _ limit h2
    refine ⟨x, hx, y, hy, ?_⟩
    rw [tP x (by rw [hXP]; exact List.mem_cons_self x P2),
      tS y (by rw [hYS]; exact List.mem_cons_self y S2)]
    decide
  rcases hpair with ⟨hP, hS⟩ | ⟨hP, hO⟩ | ⟨hS, hO⟩
  · exact caseA hP hS
  · by_cases hS : S = []
    · obtain ⟨x, P2, hXP⟩ := List.exists_cons_of_ne_nil hP
      obtain ⟨y, O2, hYO⟩ := List.exists_cons_of_ne_nil hO
      have hml : 0 < max P.length (max S.length O.length) := by
        have : 0 < P.length := by rw [hXP]; simp
        omega
      have hrr : roundRobin P S O
          = x :: y :: rrFrom P S O (max P.length (max S.length O.length)) 1 := by
        rw [roundRobin_pos P S O hml, hXP, hYO, hS]
        simp
      rw [hrr]
      obtain ⟨hx, hy⟩ := two_mem_take x y _ limit h2
      refine ⟨x, hx, y, hy, ?_⟩
      rw [tP x (by rw [hXP]; exact List.mem_cons_self x P2),
        tO y (by rw [hYO]; exact List.mem_cons_self y O2)]
      decide
    · exact caseA hP hS
  · by_cases hP : P = []
    · obtain ⟨x, S2, hXS⟩ := List.exists_cons_of_ne_nil hS
      obtain ⟨y, O2, hYO⟩ := List.exists_cons_of_ne_nil hO
      have hml : 0 < max P.length (max S.length O.length) := by
        have : 0 < S.length := by rw [hXS]; simp
        omega
      have hrr : roundRobin P S O
          = x :: y :: rrFrom P S O (max P.length (max S.length O.length)) 1 := by
        rw [roundRobin_pos P S O hml, hXS, hYO, hP]
        simp
      rw [hrr]
      obtain ⟨hx, hy⟩ := two_mem_take x y _ limit h2
      refine ⟨x, hx, y, hy, ?_⟩
      rw [tS x (by rw [hXS]; exact List.mem_cons_self x S2),
        tO y (by rw [hYO]; exact List.mem_cons_self y O2)]
      decide
    · exact caseA hP hS

theorem searchProducts_ne_nil (db : Store) (q : String) (n : Nat) (hn : 0 < n)
    (hf : db.products.filter (productWhere q) ≠ []) : searchProducts db q n ≠ [] := by
  intro h
  have hlen := length_searchProducts db q n
  rw [h] at hlen
  have h1 : 0 < (db.products.filter (productWhere q)).length := List.length_pos.mpr hf
  simp only [List.length_nil] at hlen
  omega

theorem searchSuppliers_ne_nil (db : Store) (q : String) (n : Nat) (hn : 0 < n)
    (hf : db.suppliers.filter (fun s => nameWhere q s.name) ≠ []) :
    searchSuppliers db q n ≠ [] := by
  intro h
  have hlen := length_searchSuppliers db q n
  rw [h] at hlen
  have h1 : 0 < (db.suppliers.filter (fun s => nameWhere q s.name)).length :=
    List.length_pos.mpr hf
  simp only [List.length_nil] at hlen
  omega

theorem searchOrders_ne_nil (db : Store) (q : String) (n : Nat) (hn : 0 < n)
    (hf : db.orders.filter (fun o => nameWhere q o.name) ≠ []) : searchOrders db q n ≠ [] := by
  intro h
  have hlen := length_searchOrders db q n
  rw [h] at hlen
  have h1 : 0 < (db.orders.filter (fun o => nameWhere q o.name)).length := List.length_pos.mpr hf
  simp only [List.length_nil] at hlen
  omega

/-- Claim C7 theorem, amended: for every valid search request with no
entity filter and limit in [2, 20] (limit 1 excepted: a single result can
only carry one type), if matching rows exist in at least two distinct
entity types then the returned suggestions list contains more than one
distinct `type` value. -/
theorem getSuggestions_diverse (db : Store) (q : String) (limit : Nat)
    (_hq : 3 ≤ q.length) (h2 : 2 ≤ limit) (_h20 : limit ≤ 20)
    (hmatch : (db.products.filter (productWhere q) ≠ []
        ∧ db.suppliers.filter (fun s => nameWhere q s.name) ≠ [])
      ∨ (db.products.filter (productWhere q) ≠ []
        ∧ db.orders.filter (fun o => nameWhere q o.name) ≠ [])
      ∨ (db.suppliers.filter (fun s => nameWhere q s.name) ≠ []
        ∧ db.orders.filter (fun o => nameWhere q o.name) ≠ [])) :
    ∃ a ∈ getSuggestions db q none limit,
      ∃ b ∈ getSuggestions db q none limit, a.type ≠ b.type := by
  rw [getSuggestions_none_eq db q limit]
  have hpel : 0 < (limit + 2) / 3 := by omega
  apply diverse_core _ _ _ limit h2
  · exact searchProducts_type db q _
  · exact searchSuppliers_type db q _
  · exact searchOrders_type db q _
  · rcases hmatch with ⟨h1, h3⟩ | ⟨h1, h3⟩ | ⟨h1, h3⟩
    · exact Or.inl ⟨searchProducts_ne_nil db q _ hpel h1, searchSuppliers_ne_nil db q _ hpel h3⟩
    · exact Or.inr (Or.inl ⟨searchProducts_ne_nil db q _ hpel h1,
        searchOrders_ne_nil db q _ hpel h3⟩)
    · exact Or.inr (Or.inr ⟨searchSuppliers_ne_nil db q _ hpel h1,
        searchOrders_ne_nil db q _ hpel h3⟩)

/-- Store with a matching product and a matching supplier, used for the
limit-1 counterexample to claim C7 and as the witness database. -/
def widgetStore : Store :=
  { products := [⟨5, 1, "Widget A", "", 2999, "WDG-001"⟩]
    suppliers := [⟨1, "Widget Supplier Inc.", "john@widget.com"⟩]
    orders := []
    orderDetails := []
    nextOrderId := 1
    nextOrderDetailId := 1 }

/-- Claim C7 counterexample: at limit 1 (which the claim admits: limit in
[1, 20]) with matches in two entity types, the returned list has exactly
one element, hence a single distinct `type` value. -/
theorem getSuggestions_diverse_counterexample :
    widgetStore.products.filter (productWhere "widget") ≠ []
      ∧ widgetStore.suppliers.filter (fun s => nameWhere "widget" s.name) ≠ []
      ∧ 3 ≤ "widget".length
      ∧ (getSuggestions widgetStore "widget" none 1).length = 1
      ∧ ¬ (∃ a ∈ getSuggestions widgetStore "widget" none 1,
            ∃ b ∈ getSuggestions widgetStore "widget" none 1, a.type ≠ b.type) := by
  refine ⟨by decide, by decide, by decide, by decide, by decide⟩

/-- Claim C7 witness: with limit 2 and matches in two entity types, the
output carries two distinct types. -/
theorem getSuggestions_diverse_witness :
    ∃ a ∈ getSuggestions widgetStore "widget" none 2,
      ∃ b ∈ getSuggestions widgetStore "widget" none 2, a.type ≠ b.type :=
  getSuggestions_diverse widgetStore "widget" 2 (by decide) (by decide) (by decide)
    (Or.inl ⟨by decide, by decide⟩)

/-! ### The suggestions route (`src/routes/search.ts`)

The Express handler reads `q`, `entity`, `limit` from the query string
(each absent or a string), computes
`limit = req.query.limit ? parseInt(req.query.limit) : 10` — note that an
empty string is falsy, so it also falls back to 10 — and then validates
in source order.  JavaScript `parseInt` (no radix argument) is modelled
faithfully: leading ASCII whitespace is skipped, an optional sign is
read, a `0x`/`0X` prefix switches to base 16, and the longest leading
digit run is converted, with NaN (modelled as `none`) when it is empty. -/

/-- ASCII whitespace skipped by `parseInt`. -/
def isJsSpace (c : Char) : Bool :=
  c = ' ' || c = '\t' || c = '\n' || c = '\r' || c.toNat = 11 || c.toNat = 12

/-- Decimal digit value. -/
def digitVal (c : Char) : Option Nat :=
  if 48 ≤ c.toNat ∧ c.toNat ≤ 57 then some (c.toNat - 48) else none

/-- Hexadecimal digit value. -/
def hexVal (c : Char) : Option Nat :=
  if 48 ≤ c.toNat ∧ c.toNat ≤ 57 then some (c.toNat - 48)
  else if 97 ≤ c.toNat ∧ c.toNat ≤ 102 then some (c.toNat - 87)
  else if 65 ≤ c.toNat ∧ c.toNat ≤ 70 then some (c.toNat - 55)
  else none

/-- Converts the longest leading digit run, stopping at the first
non-digit. -/
def digitsLoop (dv : Char → Option Nat) (base : Nat) : List Char → Nat → Nat
  | [], acc => acc
  | c :: cs, acc =>
    match dv c with
    | some d => digitsLoop dv base cs (acc * base + d)
    | none => acc

/-- There is at least one digit to convert. -/
def hasLeadingDigit (dv : Char → Option Nat) : List Char → Bool
  | [] => false
  | c :: _ => (dv c).isSome

/-- Signed conversion after whitespace stripping: `0x`/`0X` switches to
base 16; NaN (= `none`) when no digit follows. -/
def jsParseSigned (sign : Int) (l : List Char) : Option Int :=
  match l with
  | '0' :: 'x' :: rest =>
    if hasLeadingDigit hexVal rest
    then some (sign * (digitsLoop hexVal 16 rest 0 : Nat)) else none
  | '0' :: 'X' :: rest =>
    if hasLeadingDigit hexVal rest
    then some (sign * (digitsLoop hexVal 16 rest 0 : Nat)) else none
  | _ =>
    if hasLeadingDigit digitVal l
    then some (sign * (digitsLoop digitVal 10 l 0 : Nat)) else none

/-- JavaScript `parseInt(s)` with no radix argument; `none` models NaN. -/
def jsParseInt (s : String) : Option Int :=
  match s.data.dropWhile isJsSpace with
  | '+' :: rest => jsParseSigned 1 rest
  | '-' :: rest => jsParseSigned (-1) rest
  | l => jsParseSigned 1 l

/-- Query-string parameters of `GET /suggestions` (each absent or a
string). -/
structure SearchQuery where
  q : Option String
  entity : Option String
  limit : Option String
deriving DecidableEq, Repr

/-- Outcome of the route: `200 {query, suggestions}` or a
`ValidationError` turned into `400 {error:{code:"VALIDATION_ERROR",
message}}` by the error middleware. -/
inductive SearchResult where
  | ok (query : String) (suggestions : List SearchSuggestion)
  | validationError (message : String)
deriving DecidableEq, Repr

/-- The valid entity values of the route. -/
def validEntities : List String := ["products", "suppliers", "orders"]

/-- The `const limit = req.query.limit ? parseInt(req.query.limit) : 10`
line (an absent or empty `limit` parameter is falsy). -/
def effectiveLimit (req : SearchQuery) : Option Int :=
  match req.limit with
  | none => some 10
  | some ls => if ls = "" then some 10 else jsParseInt ls

/-- The `GET /suggestions` handler: validations in source order, then
`getSuggestions`. -/
def suggestionsHandler (db : Store) (req : SearchQuery) : SearchResult :=
  match req.q with
  | none => .validationError "Query parameter \"q\" is required"
  | some query =>
    if query = "" then .validationError "Query parameter \"q\" is required"
    else if query.length < 3 then .validationError "Query must be at least 3 characters long"
    else if (match req.entity with
        | some e => e != "" && !(validEntities.contains e)
        | none => false) then
      .validationError "Invalid entity type. Must be one of: products, suppliers, orders"
    else
      match effectiveLimit req with
      | none => .validationError "Limit must be a positive number"
      | some l =>
        if l < 1 then .validationError "Limit must be a positive number"
        else if 20 < l then .validationError "Limit cannot exceed 20"
        else .ok query (getSuggestions db query req.entity l.toNat)

/-- Spec-side request-rejection condition (the amended claim C9): the
request is rejected exactly when `q` is missing or empty, or `q` is
shorter than 3 characters, or a present non-empty `entity` value lies
outside {products, suppliers, orders}, or the effective limit (absent or
empty parameter defaulting to 10, otherwise `parseInt`) is NaN or
outside [1, 20]. -/
def badRequest (req : SearchQuery) : Bool :=
  (match req.q with
    | none => true
    | some s => s == "" || decide (s.length < 3))
  || (match req.entity with
      | some e => e != "" && !(validEntities.contains e)
      | none => false)
  || (match effectiveLimit req with
      | none => true
      | some l => decide (l < 1) || decide (20 < l))

example : jsParseInt "12" = some 12 := by decide
example : jsParseInt "12abc" = some 12 := by decide
example : jsParseInt "abc" = none := by decide
example : jsParseInt " -3" = some (-3) := by decide
example : jsParseInt "0x14" = some 20 := by decide
example : jsParseInt "" = none := by decide

/-- Tests whether the route outcome is a 400 validation error. -/
def isValidationError : SearchResult → Bool
  | .validationError _ => true
  | .ok _ _ => false


/-- Claim C9 theorem, amended: the route responds 400 exactly when `q` is
missing or empty, `q` is shorter than 3 characters, a present non-empty
`entity` value lies outside {products, suppliers, orders}, or the
effective limit (absent or empty parameter defaults to 10, otherwise
JavaScript `parseInt`) is NaN or outside [1, 20]; every other request
gets `200 {query, suggestions}` computed by `getSuggestions` at the
effective limit. -/
theorem suggestionsHandler_validation (db : Store) (req : SearchQuery) :
    isValidationError (suggestionsHandler db req) = badRequest req
    ∧ (req.limit = none → effectiveLimit req = some 10)
    ∧ (badRequest req = false →
        suggestionsHandler db req
          = .ok (req.q.getD "")
              (getSuggestions db (req.q.getD "") req.entity
                (((effectiveLimit req).getD 10).toNat))) := by
  obtain ⟨qf, ef, lf⟩ := req
  refine ⟨?_, ?_, ?_⟩
  · cases qf with
    | none => rfl
    | some query =>
      simp only [suggestionsHandler, badRequest]
      by_cases h0 : query = ""
      · rw [if_pos h0]
        simp [isValidationError, h0]
      · rw [if_neg h0]
        by_cases h3 : query.length < 3
        · rw [if_pos h3]
          simp [isValidationError, h0, h3]
        · rw [if_neg h3]
          by_cases hent : (match ef with
              | some e => e != "" && !(validEntities.contains e)
              | none => false) = true
          · rw [if_pos hent, hent]
            simp [isValidationError]
          · rw [if_neg hent]
            rw [Bool.not_eq_true] at hent
            cases hel : effectiveLimit ⟨some query, ef, lf⟩ with
            | none =>
              rw [hent]
              simp [isValidationError]
            | some l =>
              simp only []
              by_cases hl1 : l < 1
              · rw [if_pos hl1, hent]
                simp [isValidationError, hl1]
              · rw [if_neg hl1]
                by_cases hl20 : 20 < l
                · rw [if_pos hl20, hent]
                  simp [isValidationError, hl20]
                · rw [if_neg hl20, hent]
                  simp [isValidationError, h0, h3, hl1, hl20]
  · intro h
    have h2 : lf = none := h
    subst h2
    rfl
  · cases qf with
    | none =>
      intro hok
      simp [badRequest] at hok
    | some query =>
      intro hok
      unfold badRequest at hok
      simp only [] at hok
      rw [Bool.or_eq_false_iff, Bool.or_eq_false_iff] at hok
      obtain ⟨⟨hA, hB⟩, hC⟩ := hok
      obtain ⟨hA1, hA2⟩ := Bool.or_eq_false_iff.mp hA
      have h0 : ¬ query = "" := by
        intro h
        rw [h] at hA1
        simp at hA1
      have h3 : ¬ query.length < 3 := of_decide_eq_false hA2
      simp only [suggestionsHandler, Option.getD]
      rw [if_neg h0, if_neg h3]
      split
      · next hEnt =>
        rw [hB] at hEnt
        exact absurd hEnt Bool.false_ne_true
      have hopt : ∀ o : Option Int, o = none ∨ ∃ l, o = some l := by
        intro o
        cases o
        · exact Or.inl rfl
        · exact Or.inr ⟨_, rfl⟩
      rcases hopt (effectiveLimit ⟨some query, ef, lf⟩) with hel | ⟨l, hel⟩
      · rw [hel] at hC
        simp at hC
      · rw [hel] at hC
        simp only [] at hC
        obtain ⟨hC1, hC2⟩ := Bool.or_eq_false_iff.mp hC
        rw [hel]
        simp only []
        rw [if_neg (of_decide_eq_false hC1), if_neg (of_decide_eq_false hC2)]

/-- Claim C9 counterexample: two requests that the claim requires to be
rejected with 400 are in fact answered 200 — an empty `entity` value
(outside {products, suppliers, orders}) is skipped by the truthiness
check `entity && ...`, and the non-numeric limit string "12abc" passes as
`parseInt("12abc") = 12`. -/
theorem suggestionsHandler_validation_counterexample :
    ("" ∈ validEntities) = false
      ∧ suggestionsHandler widgetStore ⟨some "widget", some "", none⟩
        = .ok "widget" (getSuggestions widgetStore "widget" (some "") 10)
      ∧ jsParseInt "12abc" = some 12
      ∧ suggestionsHandler widgetStore ⟨some "widget", none, some "12abc"⟩
        = .ok "widget" (getSuggestions widgetStore "widget" none 12) := by
  refine ⟨by decide, by decide, by decide, by decide⟩

/-- Claim C9 witness: a concrete valid request answered 200 at the
default limit, and a concrete instance of the 400-iff-bad equation. -/
theorem suggestionsHandler_validation_witness :
    isValidationError (suggestionsHandler widgetStore ⟨some "widget", none, none⟩)
      = badRequest ⟨some "widget", none, none⟩
    ∧ suggestionsHandler widgetStore ⟨some "widget", none, none⟩
      = .ok ((some "widget").getD "")
          (getSuggestions widgetStore ((some "widget").getD "") none
            (((effectiveLimit ⟨some "widget", none, none⟩).getD 10).toNat)) :=
  ⟨(suggestionsHandler_validation widgetStore ⟨some "widget", none, none⟩).1,
    (suggestionsHandler_validation widgetStore ⟨some "widget", none, none⟩).2.2 (by decide)⟩

/-! ### Order-creation workflow (`src/routes/order.ts`, POST /)

The repositories (`productsRepo`, `ordersRepo`, `orderDetailsRepo`) and
the SQLite transaction wrapper are not under `src/`; they are modelled
from the spec as the obvious CRUD operations on the `Store`, and the
transaction as standard begin/commit/rollback snapshot semantics
("all-or-nothing visibility", spec section 5): the handler returns the
pre-transaction store whenever the transaction body raises.  A fault
oracle `fault : Nat → Bool` injects database exceptions at the individual
writes inside the open transaction (`fault k` fires at the k-th write:
k = 0 is the Order insert, k ≥ 1 the k-th OrderDetail insert). -/

/-- An entry of the `items` array of a cart order request. -/
structure CartItem where
  productId : Int
  quantity : Int
deriving DecidableEq, Repr

/-- The `CartOrderRequest` payload; absent fields are `none`, and a
`branchId` of `some 0` is falsy in the source's `!cartRequest.branchId`
check. -/
structure CartOrderRequest where
  branchId : Option Int
  items : Option (List CartItem)
deriving DecidableEq, Repr

/-- Outcome of the cart-order handler: 400 via the `ValidationError`
middleware, the inline `400 {error:"Product not found", productId}`,
a propagated exception (500), or `201` with the enriched response. -/
inductive CartResponse where
  | validationError (message : String)
  | productNotFound (productId : Int)
  | serverError
  | created (order : Order) (details : List (OrderDetail × Product))
deriving DecidableEq, Repr

/-- Modelled from the spec: `productsRepo.findById` — "resolve
`productId` against the product store" (`SELECT ... WHERE product_id = ?`). -/
def productsFindById (s : Store) (id : Int) : Option Product :=
  s.products.find? (fun p => p.productId == id)

/-- Modelled from the spec: `ordersRepo.create` — inserts one Order row
with the next auto-increment identifier. -/
def ordersCreate (s : Store) (branchId : Int)
    (orderDate status name description : String) : Store × Order :=
  ({ s with
      orders := s.orders ++ [⟨s.nextOrderId, branchId, orderDate, status, name, description⟩],
      nextOrderId := s.nextOrderId + 1 },
   ⟨s.nextOrderId, branchId, orderDate, status, name, description⟩)

/-- Modelled from the spec: `orderDetailsRepo.create` — inserts one
OrderDetail row with the next auto-increment identifier. -/
def orderDetailsCreate (s : Store) (orderId productId quantity unitPrice : Int)
    (notes : String) : Store × OrderDetail :=
  ({ s with
      orderDetails := s.orderDetails
        ++ [⟨s.nextOrderDetailId, orderId, productId, quantity, unitPrice, notes⟩],
      nextOrderDetailId := s.nextOrderDetailId + 1 },
   ⟨s.nextOrderDetailId, orderId, productId, quantity, unitPrice, notes⟩)

/-- Modelled from the spec: `ordersRepo.findById` (the re-read of the
committed order in step 8). -/
def ordersFindById (s : Store) (id : Int) : Option Order :=
  s.orders.find? (fun o => o.orderId == id)

/-- Modelled from the spec/tests: `UPDATE products SET price = ? WHERE
product_id = ?` (used by the price-snapshot regression test). -/
def updateProductPrice (s : Store) (id : Int) (newPrice : Int) : Store :=
  { s with products := s.products.map (fun p =>
      if p.productId == id then { p with price := newPrice } else p) }

/-- The handler's `productMap : Map<number, Product>`, modelled as a
lookup function (only `get` and `set` are used). -/
def PMap : Type := Int → Option Product

/-- `productMap.set(key, value)`. -/
def pmapSet (m : PMap) (k : Int) (v : Product) : PMap :=
  fun k2 => if k2 == k then some v else m k2

/-- The initial empty map. -/
def pmapEmpty : PMap := fun _ => none

/-- The product-resolution loop: `for (const item of cartRequest.items)`
resolves each item in input order and returns on the first miss with the
offending productId, otherwise fills the map. -/
def resolveProducts (s : Store) : List CartItem → PMap → Except Int PMap
  | [], m => .ok m
  | it :: rest, m =>
    match productsFindById s it.productId with
    | none => .error it.productId
    | some p => resolveProducts s rest (pmapSet m it.productId p)

/-- The OrderDetail-creation loop inside the open transaction, threading
the write counter `k` for the fault oracle; `none` models a raised
exception (either an injected database fault or the defensive
`throw new Error('Product ... not found in validation map')`). -/
def detailsLoop (fault : Nat → Bool) (m : PMap) (orderId : Int) :
    List CartItem → Nat → Store → List (OrderDetail × Product) →
    Option (Store × List (OrderDetail × Product))
  | [], _, s, acc => some (s, acc)
  | it :: rest, k, s, acc =>
    if fault k then none
    else
      match m it.productId with
      | none => none
      | some p =>
        detailsLoop fault m orderId rest (k + 1)
          (orderDetailsCreate s orderId it.productId it.quantity p.price "").1
          (acc ++ [((orderDetailsCreate s orderId it.productId it.quantity p.price "").2, p)])

/-- The transaction body (between `BEGIN TRANSACTION` and `COMMIT`):
create the Order row (`orderDate` = current timestamp, status "pending",
empty name and description), then one OrderDetail row per item in input
order; `none` models an exception escaping the body, which the catch
block answers with `ROLLBACK`. -/
def cartTxn (fault : Nat → Bool) (s : Store) (branchId : Int) (now : String)
    (items : List CartItem) (m : PMap) :
    Option (Store × Order × List (OrderDetail × Product)) :=
  if fault 0 then none
  else
    match detailsLoop fault m (ordersCreate s branchId now "pending" "" "").2.orderId items 1
        (ordersCreate s branchId now "pending" "" "").1 [] with
    | none => none
    | some (s2, ds) => some (s2, (ordersCreate s branchId now "pending" "" "").2, ds)

/-- The `POST /` cart-order handler.  `now` abstracts
`new Date().toISOString()`.  The returned store is the visible state
after the request: unchanged on validation failure, on product-not-found
(no write happens before the transaction), and on any in-transaction
exception (the `ROLLBACK` restores the pre-transaction snapshot). -/
def cartOrderHandler (s : Store) (req : CartOrderRequest) (now : String)
    (fault : Nat → Bool) : Store × CartResponse :=
  match req.branchId with
  | none => (s, .validationError "branchId is required")
  | some b =>
    if b == 0 then (s, .validationError "branchId is required")
    else
      match req.items with
      | none => (s, .validationError "items array must not be empty")
      | some items =>
        if items.isEmpty then (s, .validationError "items array must not be empty")
        else
          match resolveProducts s items pmapEmpty with
          | .error pid => (s, .productNotFound pid)
          | .ok m =>
            match cartTxn fault s b now items m with
            | none => (s, .serverError)
            | some (s2, ord, ds) =>
              match ordersFindById s2 ord.orderId with
              | none => (s2, .serverError)
              | some o => (s2, .created o ds)

/-- The no-exception oracle (normal operation). -/
def noFault : Nat → Bool := fun _ => false

example :
    (cartOrderHandler widgetStore ⟨some 1, some [⟨5, 2⟩]⟩ "T0" noFault).2
      = CartResponse.created ⟨1, 1, "T0", "pending", "", ""⟩
          [(⟨1, 1, 5, 2, 2999, ""⟩, ⟨5, 1, "Widget A", "", 2999, "WDG-001"⟩)] := by decide
example :
    cartOrderHandler widgetStore ⟨some 1, some [⟨5, 2⟩]⟩ "T0" (fun _ => true)
      = (widgetStore, CartResponse.serverError) := by decide
example :
    cartOrderHandler widgetStore ⟨some 1, some [⟨999, 1⟩]⟩ "T0" noFault
      = (widgetStore, CartResponse.productNotFound 999) := by decide
example :
    cartOrderHandler widgetStore ⟨none, some [⟨999, 1⟩]⟩ "T0" noFault
      = (widgetStore, CartResponse.validationError "branchId is required") := by decide

/-! ### Lemmas about the cart-order workflow -/

theorem resolveProducts_ok (s : Store) :
    ∀ (items : List CartItem) (m0 m : PMap),
      resolveProducts s items m0 = .ok m →
      (∀ k v, m0 k = some v → productsFindById s k = some v) →
      (∀ k v, m k = some v → productsFindById s k = some v)
        ∧ (∀ k, (m0 k).isSome = true → (m k).isSome = true)
        ∧ (∀ it ∈ items, (m it.productId).isSome = true) := by
  intro items
  induction items with
  | nil =>
    intro m0 m h hinv
    simp only [resolveProducts, Except.ok.injEq] at h
    subst h
    exact ⟨hinv, fun k hk => hk, by simp⟩
  | cons it rest ih =>
    intro m0 m h hinv
    simp only [resolveProducts] at h
    cases hf : productsFindById s it.productId with
    | none =>
      rw [hf] at h
      simp at h
    | some p =>
      rw [hf] at h
      have hinv2 : ∀ k v, pmapSet m0 it.productId p k = some v → productsFindById s k = some v := by
        intro k v hk
        simp only [pmapSet] at hk
        by_cases hkk : k == it.productId
        · have : k = it.productId := by
            have := hkk
            simpa using this
          subst this
          rw [if_pos hkk] at hk
          rw [hf]
          exact hk ▸ rfl
        · rw [if_neg hkk] at hk
          exact hinv k v hk
      obtain ⟨ha, hmono, hall⟩ := ih _ _ h hinv2
      refine ⟨ha, ?_, ?_⟩
      · intro k hk
        apply hmono
        simp only [pmapSet]
        split
        · rfl
        · exact hk
      · intro jt hjt
        rcases List.mem_cons.mp hjt with rfl | hmem
        · apply hmono
          simp [pmapSet]
        · exact hall jt hmem

theorem resolveProducts_err (s : Store) :
    ∀ (items : List CartItem) (m0 : PMap) (pid : Int),
      resolveProducts s items m0 = .error pid →
      ∃ pre it post, items = pre ++ it :: post ∧ pid = it.productId
        ∧ productsFindById s it.productId = none
        ∧ ∀ jt ∈ pre, (productsFindById s jt.productId).isSome = true := by
  intro items
  induction items with
  | nil =>
    intro m0 pid h
    simp [resolveProducts] at h
  | cons it rest ih =>
    intro m0 pid h
    simp only [resolveProducts] at h
    cases hf : productsFindById s it.productId with
    | none =>
      rw [hf] at h
      simp only [Except.error.injEq] at h
      exact ⟨[], it, rest, by simp, h.symm, hf, by simp⟩
    | some p =>
      rw [hf] at h
      obtain ⟨pre, jt, post, hsplit, hpid, hnone, hpre⟩ := ih _ _ h
      refine ⟨it :: pre, jt, post, by simp [hsplit], hpid, hnone, ?_⟩
      intro kt hkt
      rcases List.mem_cons.mp hkt with rfl | hmem
      · simp [hf]
      · exact hpre kt hmem

theorem detailsLoop_some (fault : Nat → Bool) (m : PMap) (oid : Int) :
    ∀ (items : List CartItem) (k : Nat) (s : Store)
      (acc ds : List (OrderDetail × Product)) (s2 : Store),
      detailsLoop fault m oid items k s acc = some (s2, ds) →
      ∃ newds, ds = acc ++ newds
        ∧ s2.products = s.products ∧ s2.suppliers = s.suppliers ∧ s2.orders = s.orders
        ∧ s2.orderDetails = s.orderDetails ++ newds.map Prod.fst
        ∧ s2.nextOrderId = s.nextOrderId
        ∧ newds.length = items.length
        ∧ (∀ (i : Nat) (it : CartItem), items[i]? = some it → ∃ (p : Product),
            m it.productId = some p
            ∧ ∃ (d : OrderDetail), newds[i]? = some (d, p) ∧ d.orderId = oid
              ∧ d.productId = it.productId
              ∧ d.quantity = it.quantity ∧ d.unitPrice = p.price ∧ d.notes = "") := by
  intro items
  induction items with
  | nil =>
    intro k s acc ds s2 h
    simp only [detailsLoop, Option.some.injEq, Prod.mk.injEq] at h
    obtain ⟨hs, hd⟩ := h
    subst hs
    subst hd
    exact ⟨[], by simp, rfl, rfl, rfl, by simp, rfl, rfl, by simp⟩
  | cons it rest ih =>
    intro k s acc ds s2 h
    simp only [detailsLoop] at h
    by_cases hfk : fault k = true
    · rw [if_pos hfk] at h
      simp at h
    · rw [if_neg (by simp [hfk])] at h
      cases hm : m it.productId with
      | none =>
        rw [hm] at h
        simp at h
      | some p =>
        rw [hm] at h
        obtain ⟨newds, hds, hprod, hsupp, hord, hodet, hnext, hlen, hidx⟩ :=
          ih (k + 1) _ _ ds s2 h
        refine ⟨(⟨s.nextOrderDetailId, oid, it.productId, it.quantity, p.price, ""⟩, p) :: newds,
          by simp [hds, orderDetailsCreate], ?_, ?_, ?_, ?_, ?_, by simp [hlen], ?_⟩
        · rw [hprod]
          rfl
        · rw [hsupp]
          rfl
        · rw [hord]
          rfl
        · rw [hodet]
          simp [orderDetailsCreate]
        · rw [hnext]
          rfl
        · intro i jt hjt
          cases i with
          | zero =>
            rw [List.getElem?_cons_zero] at hjt
            obtain rfl : it = jt := by simpa using hjt
            exact ⟨p, hm, ⟨s.nextOrderDetailId, oid, it.productId, it.quantity, p.price, ""⟩,
              by simp, rfl, rfl, rfl, rfl, rfl⟩
          | succ i =>
            rw [List.getElem?_cons_succ] at hjt
            obtain ⟨p2, hp2, d2, hd2, hrest⟩ := hidx i jt hjt
            exact ⟨p2, hp2, d2, by simpa using hd2, hrest⟩

/-- Inversion of a successful cart-order run: the request passed all
validations, exactly one Order row and one OrderDetail row per item were
appended, and each response detail snapshots the product resolved during
validation together with its price. -/
theorem cartOrderHandler_created (s : Store) (req : CartOrderRequest) (now : String)
    (fault : Nat → Bool) (s2 : Store) (o : Order) (ds : List (OrderDetail × Product))
    (h : cartOrderHandler s req now fault = (s2, .created o ds)) :
    ∃ (b : Int) (items : List CartItem),
      req.branchId = some b ∧ req.items = some items ∧ items ≠ []
      ∧ s2.orders = s.orders ++ [⟨s.nextOrderId, b, now, "pending", "", ""⟩]
      ∧ s2.orderDetails = s.orderDetails ++ ds.map Prod.fst
      ∧ s2.products = s.products
      ∧ s2.suppliers = s.suppliers
      ∧ ds.length = items.length
      ∧ (∀ (i : Nat) (it : CartItem), items[i]? = some it → ∃ (p : Product),
          productsFindById s it.productId = some p
          ∧ ∃ (d : OrderDetail), ds[i]? = some (d, p)
            ∧ d.orderId = s.nextOrderId ∧ d.productId = it.productId
            ∧ d.quantity = it.quantity ∧ d.unitPrice = p.price ∧ d.notes = "") := by
  obtain ⟨bf, itf⟩ := req
  cases bf with
  | none => simp [cartOrderHandler] at h
  | some b =>
    by_cases hb0 : (b == 0) = true
    · simp [cartOrderHandler, hb0] at h
    · cases itf with
      | none => simp [cartOrderHandler, hb0] at h
      | some items =>
        by_cases hemp : items.isEmpty = true
        · simp only [cartOrderHandler, hb0] at h
          rw [if_neg (by simp [hb0]), if_pos hemp] at h
          simp at h
        · simp only [cartOrderHandler] at h
          rw [if_neg (by simp [hb0]), if_neg (by simp [hemp])] at h
          cases hres : resolveProducts s items pmapEmpty with
          | error pid =>
            simp only [hres] at h
            simp at h
          | ok m =>
            simp only [hres] at h
            cases htxn : cartTxn fault s b now items m with
            | none =>
              simp only [htxn] at h
              simp at h
            | some r =>
              obtain ⟨s3, ord, ds2⟩ := r
              simp only [htxn] at h
              cases hfind : ordersFindById s3 ord.orderId with
              | none =>
                simp only [hfind] at h
                simp at h
              | some o2 =>
                simp only [hfind] at h
                simp only [Prod.mk.injEq, CartResponse.created.injEq] at h
                obtain ⟨hs3, ho2, hds2⟩ := h
                subst hs3
                subst ho2
                subst hds2
                -- invert the transaction body
                simp only [cartTxn] at htxn
                by_cases hf0 : fault 0 = true
                · rw [if_pos hf0] at htxn
                  simp at htxn
                · rw [if_neg (by simp [hf0])] at htxn
                  cases hdl : detailsLoop fault m
                      (ordersCreate s b now "pending" "" "").2.orderId items 1
                      (ordersCreate s b now "pending" "" "").1 [] with
                  | none =>
                    simp only [hdl] at htxn
                    simp at htxn
                  | some r2 =>
                    obtain ⟨s4, ds4⟩ := r2
                    simp only [hdl] at htxn
                    simp only [Option.some.injEq, Prod.mk.injEq] at htxn
                    obtain ⟨hs4, hord, hds4⟩ := htxn
                    subst hs4
                    subst hord
                    subst hds4
                    obtain ⟨newds, hds, hprod, hsupp, hordrs, hodet, _hnext, hlen, hidx⟩ :=
                      detailsLoop_some fault m _ items 1 _ [] _ _ hdl
                    rw [List.nil_append] at hds
                    subst hds
                    obtain ⟨hmap, _hmono, hall⟩ :=
                      resolveProducts_ok s items pmapEmpty m hres (by
                        intro k v hk
                        simp [pmapEmpty] at hk)
                    refine ⟨b, items, rfl, rfl, by simpa using hemp, ?_, ?_, ?_, ?_, hlen.symm ▸ rfl, ?_⟩
                    · rw [hordrs]
                      rfl
                    · exact hodet.trans (by rfl)
                    · rw [hprod]
                      rfl
                    · rw [hsupp]
                      rfl
                    · intro i it hit
                      obtain ⟨p, hp, d, hd, hrest⟩ := hidx i it hit
                      refine ⟨p, hmap it.productId p hp, d, hd, ?_, hrest.2.1, hrest.2.2.1,
                        hrest.2.2.2.1, hrest.2.2.2.2⟩
                      have := hrest.1
                      simpa [ordersCreate] using this

/-- The Order row created by a successful transaction body is present in
the committed store (hence the step-8 re-read cannot miss). -/
theorem cartTxn_order_mem (fault : Nat → Bool) (s : Store) (b : Int) (now : String)
    (items : List CartItem) (m : PMap) (s3 : Store) (ord : Order)
    (ds : List (OrderDetail × Product))
    (h : cartTxn fault s b now items m = some (s3, ord, ds)) : ord ∈ s3.orders := by
  simp only [cartTxn] at h
  by_cases hf0 : fault 0 = true
  · rw [if_pos hf0] at h
    simp at h
  · rw [if_neg (by simp [hf0])] at h
    cases hdl : detailsLoop fault m (ordersCreate s b now "pending" "" "").2.orderId items 1
        (ordersCreate s b now "pending" "" "").1 [] with
    | none =>
      simp only [hdl] at h
      simp at h
    | some r2 =>
      obtain ⟨s4, ds4⟩ := r2
      simp only [hdl] at h
      simp only [Option.some.injEq, Prod.mk.injEq] at h
      obtain ⟨hs4, hord, _⟩ := h
      subst hs4
      subst hord
      obtain ⟨newds, _, _, _, hords, _⟩ := detailsLoop_some fault m _ items 1 _ [] _ _ hdl
      rw [hords]
      have : (ordersCreate s b now "pending" "" "").1.orders
          = s.orders ++ [(ordersCreate s b now "pending" "" "").2] := rfl
      rw [this]
      exact List.mem_append_right _ (List.mem_singleton.mpr rfl)

/-- A cart-order run that does not create an order leaves the store
untouched: validation failures and product-not-found happen before any
write, and any in-transaction exception is rolled back. -/
theorem cartOrderHandler_no_write (s : Store) (req : CartOrderRequest) (now : String)
    (fault : Nat → Bool) (s2 : Store) (r : CartResponse)
    (h : cartOrderHandler s req now fault = (s2, r))
    (hr : ∀ o ds, r ≠ .created o ds) : s2 = s := by
  obtain ⟨bf, itf⟩ := req
  cases bf with
  | none =>
    simp only [cartOrderHandler, Prod.mk.injEq] at h
    exact h.1.symm
  | some b =>
    by_cases hb0 : (b == 0) = true
    · simp only [cartOrderHandler] at h
      rw [if_pos hb0] at h
      simp only [Prod.mk.injEq] at h
      exact h.1.symm
    · cases itf with
      | none =>
        simp only [cartOrderHandler] at h
        rw [if_neg (by simp [hb0])] at h
        simp only [Prod.mk.injEq] at h
        exact h.1.symm
      | some items =>
        by_cases hemp : items.isEmpty = true
        · simp only [cartOrderHandler] at h
          rw [if_neg (by simp [hb0]), if_pos hemp] at h
          simp only [Prod.mk.injEq] at h
          exact h.1.symm
        · simp only [cartOrderHandler] at h
          rw [if_neg (by simp [hb0]), if_neg (by simp [hemp])] at h
          cases hres : resolveProducts s items pmapEmpty with
          | error pid =>
            simp only [hres, Prod.mk.injEq] at h
            exact h.1.symm
          | ok m =>
            simp only [hres] at h
            cases htxn : cartTxn fault s b now items m with
            | none =>
              simp only [htxn, Prod.mk.injEq] at h
              exact h.1.symm
            | some r2 =>
              obtain ⟨s3, ord, ds2⟩ := r2
              simp only [htxn] at h
              cases hfind : ordersFindById s3 ord.orderId with
              | none =>
                exfalso
                have hmem := cartTxn_order_mem fault s b now items m s3 ord ds2 htxn
                rw [ordersFindById, List.find?_eq_none] at hfind
                exact absurd (by simp : (ord.orderId == ord.orderId) = true)
                  (hfind ord hmem)
              | some o2 =>
                exfalso
                simp only [hfind, Prod.mk.injEq] at h
                exact hr o2 ds2 h.2.symm

/-! ### C2: transactional atomicity -/

/-- Claim C2 theorem: for every cart-order request and every pattern of
exceptions raised at the writes inside the open transaction, either the
run creates no order and the persisted state is exactly the initial
state (in particular the transaction is rolled back before the error
propagates on any in-transaction exception), or it responds `created`
and exactly one Order row plus one OrderDetail row per item are
persisted — an Order is never persisted without its OrderDetail rows. -/
theorem cartOrder_atomic (s : Store) (req : CartOrderRequest) (now : String)
    (fault : Nat → Bool) (s2 : Store) (r : CartResponse)
    (h : cartOrderHandler s req now fault = (s2, r)) :
    (r = .serverError → s2 = s)
    ∧ (∀ msg, r = .validationError msg → s2 = s)
    ∧ (∀ pid, r = .productNotFound pid → s2 = s)
    ∧ (∀ o ds, r = .created o ds →
        ∃ (ord : Order) (items : List CartItem),
          req.items = some items ∧ items ≠ []
          ∧ s2.orders = s.orders ++ [ord]
          ∧ s2.orderDetails = s.orderDetails ++ ds.map Prod.fst
          ∧ ds.length = items.length) := by
  refine ⟨?_, ?_, ?_, ?_⟩
  · intro hr
    subst hr
    exact cartOrderHandler_no_write s req now fault s2 _ h (by intro o ds hc; cases hc)
  · intro msg hr
    subst hr
    exact cartOrderHandler_no_write s req now fault s2 _ h (by intro o ds hc; cases hc)
  · intro pid hr
    subst hr
    exact cartOrderHandler_no_write s req now fault s2 _ h (by intro o ds hc; cases hc)
  · intro o ds hr
    subst hr
    obtain ⟨b, items, _, hitems, hne, hords, hodet, _, _, hlen, _⟩ :=
      cartOrderHandler_created s req now fault s2 o ds h
    exact ⟨_, items, hitems, hne, hords, hodet, hlen⟩

/-- Claim C2 witness: with an exception injected at every write, a
concrete valid request is answered `serverError` and the store is
unchanged (rollback); the unchanged-store conclusion is obtained from
the atomicity theorem. -/
theorem cartOrder_atomic_witness :
    cartOrderHandler widgetStore ⟨some 1, some [⟨5, 2⟩]⟩ "T0" (fun _ => true)
      = (widgetStore, CartResponse.serverError)
    ∧ widgetStore = widgetStore :=
  have h : cartOrderHandler widgetStore ⟨some 1, some [⟨5, 2⟩]⟩ "T0" (fun _ => true)
      = (widgetStore, CartResponse.serverError) := by decide
  ⟨h, (cartOrder_atomic widgetStore ⟨some 1, some [⟨5, 2⟩]⟩ "T0" (fun _ => true)
      widgetStore CartResponse.serverError h).1 rfl⟩

/-! ### C4: first missing product -/

/-- Claim C4 theorem, amended: for every cart-order request that passes
the `branchId` and `items` validations and whose items contain at least
one productId resolving to no product row, the handler stops at the
first missing product in input order, responds
`400 {error:"Product not found", productId}` carrying that first
unresolvable id, and writes nothing. -/
theorem cartOrder_product_not_found (s : Store) (req : CartOrderRequest) (now : String)
    (fault : Nat → Bool) (s2 : Store) (r : CartResponse) (b : Int) (items : List CartItem)
    (h : cartOrderHandler s req now fault = (s2, r))
    (hb : req.branchId = some b) (hb0 : ¬ b = 0) (hit : req.items = some items)
    (hmiss : ∃ it ∈ items, productsFindById s it.productId = none) :
    s2 = s ∧ ∃ (pre post : List CartItem) (it : CartItem), items = pre ++ it :: post
      ∧ productsFindById s it.productId = none
      ∧ (∀ jt ∈ pre, (productsFindById s jt.productId).isSome = true)
      ∧ r = .productNotFound it.productId := by
  obtain ⟨bf, itf⟩ := req
  have hb2 : bf = some b := hb
  have hit2 : itf = some items := hit
  subst hb2
  subst hit2
  have hne : ¬ items.isEmpty = true := by
    obtain ⟨it, hmem, _⟩ := hmiss
    cases items with
    | nil => cases hmem
    | cons a as => simp
  simp only [cartOrderHandler] at h
  rw [if_neg (by simp [hb0]), if_neg (by simp [hne])] at h
  cases hres : resolveProducts s items pmapEmpty with
  | ok m =>
    exfalso
    obtain ⟨hmap, _, hall⟩ := resolveProducts_ok s items pmapEmpty m hres (by
      intro k v hk
      simp [pmapEmpty] at hk)
    obtain ⟨it, hmem, hnone⟩ := hmiss
    obtain ⟨v, hv⟩ := Option.isSome_iff_exists.mp (hall it hmem)
    rw [hmap it.productId v hv] at hnone
    cases hnone
  | error pid =>
    simp only [hres, Prod.mk.injEq] at h
    obtain ⟨hs2, hr⟩ := h
    obtain ⟨pre, it, post, hsplit, hpid, hnone, hpre⟩ := resolveProducts_err s items pmapEmpty pid hres
    exact ⟨hs2.symm, pre, post, it, hsplit, hnone, hpre, by rw [← hr, hpid]⟩

/-- Claim C4 counterexample: a request whose items contain the
unresolvable productId 999 but whose `branchId` is missing is rejected
with the `branchId` validation error, not with
`{error:"Product not found", productId:999}` as the claim, quantified
over every such request, demands. -/
theorem cartOrder_product_not_found_counterexample :
    productsFindById widgetStore 999 = none
      ∧ cartOrderHandler widgetStore ⟨none, some [⟨999, 1⟩]⟩ "T0" noFault
        = (widgetStore, CartResponse.validationError "branchId is required") := by
  refine ⟨by decide, by decide⟩

/-- Claim C4 witness: a request listing an existing product before the
missing productId 999 is answered `productNotFound` with the first (and
only) missing id, and the store is unchanged. -/
theorem cartOrder_product_not_found_witness :
    widgetStore = widgetStore
      ∧ ∃ (pre post : List CartItem) (it : CartItem),
        [(⟨5, 1⟩ : CartItem), ⟨999, 1⟩] = pre ++ it :: post
        ∧ productsFindById widgetStore it.productId = none
        ∧ (∀ jt ∈ pre, (productsFindById widgetStore jt.productId).isSome = true)
        ∧ CartResponse.productNotFound 999 = .productNotFound it.productId :=
  cartOrder_product_not_found widgetStore ⟨some 1, some [⟨5, 1⟩, ⟨999, 1⟩]⟩ "T0" noFault
    widgetStore (CartResponse.productNotFound 999) 1 [⟨5, 1⟩, ⟨999, 1⟩]
    (by decide) rfl (by decide) rfl ⟨⟨999, 1⟩, by decide, by decide⟩

/-! ### C5 and C10: price snapshots and per-item details -/

/-- Membership form of the success inversion: every response detail pair
carries a unit price equal to the snapshotted product's price, and that
product is exactly the row resolved from the pre-request store. -/
theorem cartOrderHandler_created_mem (s : Store) (req : CartOrderRequest) (now : String)
    (fault : Nat → Bool) (s2 : Store) (o : Order) (ds : List (OrderDetail × Product))
    (h : cartOrderHandler s req now fault = (s2, .created o ds)) :
    ∀ dp ∈ ds, dp.1.unitPrice = dp.2.price
      ∧ productsFindById s dp.1.productId = some dp.2 := by
  obtain ⟨b, items, _, _, _, _, _, _, _, hlen, hidx⟩ :=
    cartOrderHandler_created s req now fault s2 o ds h
  intro dp hdp
  obtain ⟨i, hi⟩ := List.getElem?_of_mem hdp
  have hilt : i < ds.length := by
    by_contra hge
    rw [List.getElem?_eq_none (by omega)] at hi
    cases hi
  have hit : items[i]? = some (items.get ⟨i, by omega⟩) := by
    rw [List.getElem?_eq_getElem (by omega)]
    rfl
  obtain ⟨p, hp, d, hd, _, hdpid, _, hprice, _⟩ := hidx i _ hit
  rw [hi] at hd
  obtain rfl : dp = (d, p) := by simpa using hd
  exact ⟨hprice, by rw [hdpid]; exact hp⟩

theorem find_update_aux (pid pr : Int) : ∀ (l : List Product),
    (l.map (fun p => if p.productId == pid then { p with price := pr } else p)).find?
        (fun p => p.productId == pid)
      = (l.find? (fun p => p.productId == pid)).map (fun p => { p with price := pr }) := by
  intro l
  have hcomp : ((fun p => p.productId == pid) ∘ (fun p : Product =>
      if p.productId == pid then { p with price := pr } else p))
      = (fun p : Product => p.productId == pid) := by
    funext x
    by_cases hx : (x.productId == pid) = true
    · simp [Function.comp, hx]
    · simp [Function.comp, hx]
  rw [List.find?_map, hcomp]
  cases hf : List.find? (fun p => p.productId == pid) l with
  | none => rfl
  | some q =>
    have hq : (q.productId == pid) = true := @List.find?_some _ (fun p => p.productId == pid) q l hf
    simp [hq]
    intro hcontra
    exact absurd (by simpa using hq) hcontra

/-- A price update rewrites only the `products` table. -/
theorem updateProductPrice_orderDetails (s : Store) (pid pr : Int) :
    (updateProductPrice s pid pr).orderDetails = s.orderDetails := rfl

/-- Resolving the updated product yields the same row with the new
price. -/
theorem productsFindById_update (s : Store) (pid pr : Int) :
    productsFindById (updateProductPrice s pid pr) pid
      = (productsFindById s pid).map (fun p => { p with price := pr }) := by
  unfold productsFindById updateProductPrice
  exact find_update_aux pid pr s.products

/-- Claim C5 theorem: each persisted OrderDetail's `unitPrice` is the
price of the product row as resolved during validation of the request
that created it; a later product price update touches no OrderDetail
row; rows of an earlier order survive a later update and a later order
unchanged; and the updated product resolves with the new price, so the
second order snapshots the new price while the first keeps the old one. -/
theorem cartOrder_price_snapshot
    (s0 : Store) (req1 req2 : CartOrderRequest) (now1 now2 : String)
    (pid newPrice : Int) (s1 s3 : Store) (o1 o2 : Order)
    (ds1 ds2 : List (OrderDetail × Product))
    (h1 : cartOrderHandler s0 req1 now1 noFault = (s1, .created o1 ds1))
    (h2 : cartOrderHandler (updateProductPrice s1 pid newPrice) req2 now2 noFault
        = (s3, .created o2 ds2)) :
    (∀ dp ∈ ds1, dp.1.unitPrice = dp.2.price
      ∧ productsFindById s0 dp.1.productId = some dp.2)
    ∧ (∀ dp ∈ ds2, dp.1.unitPrice = dp.2.price
      ∧ productsFindById (updateProductPrice s1 pid newPrice) dp.1.productId = some dp.2)
    ∧ (updateProductPrice s1 pid newPrice).orderDetails = s1.orderDetails
    ∧ (∀ d ∈ s1.orderDetails, d ∈ s3.orderDetails)
    ∧ productsFindById (updateProductPrice s1 pid newPrice) pid
      = (productsFindById s1 pid).map (fun p => { p with price := newPrice }) := by
  refine ⟨cartOrderHandler_created_mem s0 req1 now1 noFault s1 o1 ds1 h1,
    cartOrderHandler_created_mem _ req2 now2 noFault s3 o2 ds2 h2, rfl, ?_,
    productsFindById_update s1 pid newPrice⟩
  obtain ⟨b, items, _, _, _, _, hodet, _, _, _, _⟩ :=
    cartOrderHandler_created _ req2 now2 noFault s3 o2 ds2 h2
  intro d hd
  rw [hodet, updateProductPrice_orderDetails]
  exact List.mem_append_left _ hd

/-- The store after the first snapshot-witness order (price 2999
captured). -/
def snapStore1 : Store :=
  { products := [⟨5, 1, "Widget A", "", 2999, "WDG-001"⟩]
    suppliers := [⟨1, "Widget Supplier Inc.", "john@widget.com"⟩]
    orders := [⟨1, 1, "T1", "pending", "", ""⟩]
    orderDetails := [⟨1, 1, 5, 1, 2999, ""⟩]
    nextOrderId := 2
    nextOrderDetailId := 2 }

/-- The store after the price update to 3999 and the second
snapshot-witness order. -/
def snapStore3 : Store :=
  { products := [⟨5, 1, "Widget A", "", 3999, "WDG-001"⟩]
    suppliers := [⟨1, "Widget Supplier Inc.", "john@widget.com"⟩]
    orders := [⟨1, 1, "T1", "pending", "", ""⟩, ⟨2, 1, "T2", "pending", "", ""⟩]
    orderDetails := [⟨1, 1, 5, 1, 2999, ""⟩, ⟨2, 2, 5, 1, 3999, ""⟩]
    nextOrderId := 3
    nextOrderDetailId := 3 }

/-- Claim C5 witness: the regression scenario of the source test — an
order at price 2999, a price update to 3999, then a second order: the
first detail keeps unit price 2999, the second carries 3999, and the
first detail row survives both later writes unchanged. -/
theorem cartOrder_price_snapshot_witness :
    (∀ dp ∈ [((⟨1, 1, 5, 1, 2999, ""⟩ : OrderDetail),
        (⟨5, 1, "Widget A", "", 2999, "WDG-001"⟩ : Product))],
      dp.1.unitPrice = dp.2.price
      ∧ productsFindById widgetStore dp.1.productId = some dp.2)
    ∧ (∀ dp ∈ [((⟨2, 2, 5, 1, 3999, ""⟩ : OrderDetail),
        (⟨5, 1, "Widget A", "", 3999, "WDG-001"⟩ : Product))],
      dp.1.unitPrice = dp.2.price
      ∧ productsFindById (updateProductPrice snapStore1 5 3999) dp.1.productId = some dp.2)
    ∧ (updateProductPrice snapStore1 5 3999).orderDetails = snapStore1.orderDetails
    ∧ (∀ d ∈ snapStore1.orderDetails, d ∈ snapStore3.orderDetails)
    ∧ productsFindById (updateProductPrice snapStore1 5 3999) 5
      = (productsFindById snapStore1 5).map (fun p => { p with price := 3999 }) :=
  cartOrder_price_snapshot widgetStore ⟨some 1, some [⟨5, 1⟩]⟩ ⟨some 1, some [⟨5, 1⟩]⟩
    "T1" "T2" 5 3999 snapStore1 snapStore3
    ⟨1, 1, "T1", "pending", "", ""⟩ ⟨2, 1, "T2", "pending", "", ""⟩
    [(⟨1, 1, 5, 1, 2999, ""⟩, ⟨5, 1, "Widget A", "", 2999, "WDG-001"⟩)]
    [(⟨2, 2, 5, 1, 3999, ""⟩, ⟨5, 1, "Widget A", "", 3999, "WDG-001"⟩)]
    (by decide) (by decide)

/-- Claim C10 theorem: in a successful cart-order run, each item of the
request produces its own OrderDetail at the same position — duplicate
productIds are neither merged nor summed — and items sharing a productId
snapshot the same resolved product record and the same unit price. -/
theorem cartOrder_duplicate_items (s : Store) (req : CartOrderRequest) (now : String)
    (s2 : Store) (o : Order) (ds : List (OrderDetail × Product)) (items : List CartItem)
    (h : cartOrderHandler s req now noFault = (s2, .created o ds))
    (hit : req.items = some items) :
    ds.length = items.length
    ∧ (∀ (i : Nat) (it : CartItem), items[i]? = some it → ∃ (p : Product),
        productsFindById s it.productId = some p
        ∧ ∃ (d : OrderDetail), ds[i]? = some (d, p)
          ∧ d.productId = it.productId ∧ d.quantity = it.quantity ∧ d.unitPrice = p.price)
    ∧ (∀ (i j : Nat) (it jt : CartItem), items[i]? = some it → items[j]? = some jt →
        it.productId = jt.productId →
        ∀ (di dj : OrderDetail) (pi2 pj : Product), ds[i]? = some (di, pi2) →
          ds[j]? = some (dj, pj) → pi2 = pj ∧ di.unitPrice = dj.unitPrice) := by
  obtain ⟨b, items2, _, hitems2, _, _, _, _, _, hlen, hidx⟩ :=
    cartOrderHandler_created s req now noFault s2 o ds h
  rw [hit] at hitems2
  obtain rfl : items2 = items := by simpa using hitems2.symm
  refine ⟨hlen, ?_, ?_⟩
  · intro i it hi
    obtain ⟨p, hp, d, hd, _, hdpid, hdq, hdu, _⟩ := hidx i it hi
    exact ⟨p, hp, d, hd, hdpid, hdq, hdu⟩
  · intro i j it jt hi hj hpid di dj pi2 pj hdi hdj
    obtain ⟨p, hp, d, hd, _, _, _, hdu, _⟩ := hidx i it hi
    obtain ⟨p2, hp2, d2, hd2, _, _, _, hdu2, _⟩ := hidx j jt hj
    rw [hdi] at hd
    rw [hdj] at hd2
    obtain ⟨he1, he2⟩ : di = d ∧ pi2 = p := by simpa using hd
    obtain ⟨he3, he4⟩ : dj = d2 ∧ pj = p2 := by simpa using hd2
    subst he1
    subst he2
    subst he3
    subst he4
    rw [hpid] at hp
    rw [hp] at hp2
    have hppeq := Option.some.inj hp2
    constructor
    · exact hppeq
    · rw [hdu, hdu2, hppeq]

/-- Claim C10 witness: a request listing productId 5 twice (quantities 2
and 3) produces two separate OrderDetail rows in input order with the
same snapshotted product and price. -/
theorem cartOrder_duplicate_items_witness :
    ([(((⟨1, 1, 5, 2, 2999, ""⟩ : OrderDetail),
          (⟨5, 1, "Widget A", "", 2999, "WDG-001"⟩ : Product))),
        ((⟨2, 1, 5, 3, 2999, ""⟩ : OrderDetail),
          (⟨5, 1, "Widget A", "", 2999, "WDG-001"⟩ : Product))].length
      = [(⟨5, 2⟩ : CartItem), ⟨5, 3⟩].length)
    ∧ (∀ (i : Nat) (it : CartItem), [(⟨5, 2⟩ : CartItem), ⟨5, 3⟩][i]? = some it →
        ∃ (p : Product), productsFindById widgetStore it.productId = some p
        ∧ ∃ (d : OrderDetail),
          [((⟨1, 1, 5, 2, 2999, ""⟩ : OrderDetail),
              (⟨5, 1, "Widget A", "", 2999, "WDG-001"⟩ : Product)),
            (⟨2, 1, 5, 3, 2999, ""⟩, ⟨5, 1, "Widget A", "", 2999, "WDG-001"⟩)][i]? = some (d, p)
          ∧ d.productId = it.productId ∧ d.quantity = it.quantity ∧ d.unitPrice = p.price)
    ∧ (∀ (i j : Nat) (it jt : CartItem), [(⟨5, 2⟩ : CartItem), ⟨5, 3⟩][i]? = some it →
        [(⟨5, 2⟩ : CartItem), ⟨5, 3⟩][j]? = some jt →
        it.productId = jt.productId →
        ∀ (di dj : OrderDetail) (pi2 pj : Product),
          [((⟨1, 1, 5, 2, 2999, ""⟩ : OrderDetail),
              (⟨5, 1, "Widget A", "", 2999, "WDG-001"⟩ : Product)),
            (⟨2, 1, 5, 3, 2999, ""⟩, ⟨5, 1, "Widget A", "", 2999, "WDG-001"⟩)][i]? = some (di, pi2) →
          [((⟨1, 1, 5, 2, 2999, ""⟩ : OrderDetail),
              (⟨5, 1, "Widget A", "", 2999, "WDG-001"⟩ : Product)),
            (⟨2, 1, 5, 3, 2999, ""⟩, ⟨5, 1, "Widget A", "", 2999, "WDG-001"⟩)][j]? = some (dj, pj) →
          pi2 = pj ∧ di.unitPrice = dj.unitPrice) :=
  cartOrder_duplicate_items widgetStore ⟨some 1, some [⟨5, 2⟩, ⟨5, 3⟩]⟩ "T0"
    { products := [⟨5, 1, "Widget A", "", 2999, "WDG-001"⟩]
      suppliers := [⟨1, "Widget Supplier Inc.", "john@widget.com"⟩]
      orders := [⟨1, 1, "T0", "pending", "", ""⟩]
      orderDetails := [⟨1, 1, 5, 2, 2999, ""⟩, ⟨2, 1, 5, 3, 2999, ""⟩]
      nextOrderId := 2
      nextOrderDetailId := 3 }
    ⟨1, 1, "T0", "pending", "", ""⟩
    [(⟨1, 1, 5, 2, 2999, ""⟩, ⟨5, 1, "Widget A", "", 2999, "WDG-001"⟩),
      (⟨2, 1, 5, 3, 2999, ""⟩, ⟨5, 1, "Widget A", "", 2999, "WDG-001"⟩)]
    [⟨5, 2⟩, ⟨5, 3⟩] (by decide) rfl

/-! ### C8: quantity is not validated -/

/-- Claim C8 evaluation (code bug): a request with quantity 0 — which
the Swagger schema (`quantity: minimum 1`) and the spec's validation
layer (`quantity ≥ 1`) require to be rejected — is accepted: the handler
responds `created` and persists an OrderDetail row with quantity 0. -/
theorem cartOrder_quantity_not_validated :
    cartOrderHandler widgetStore ⟨some 1, some [⟨5, 0⟩]⟩ "T0" noFault
      = ({ products := [⟨5, 1, "Widget A", "", 2999, "WDG-001"⟩]
           suppliers := [⟨1, "Widget Supplier Inc.", "john@widget.com"⟩]
           orders := [⟨1, 1, "T0", "pending", "", ""⟩]
           orderDetails := [⟨1, 1, 5, 0, 2999, ""⟩]
           nextOrderId := 2
           nextOrderDetailId := 2 },
         .created ⟨1, 1, "T0", "pending", "", ""⟩
           [(⟨1, 1, 5, 0, 2999, ""⟩, ⟨5, 1, "Widget A", "", 2999, "WDG-001"⟩)]) := by
  decide
